import Mathlib

/-! # cryptopower: transaction status classification


A shallow embedding of `ui/page/components/components.go` (package `components`)
and of `ui/page/staking/stake_overview.go` (package `staking`), with theorems
about the transaction status, the transaction row and their helpers.

Conventions of the embedding:

* Go `int32` / `int64` values are `Int`; Go `string` is `String`.
* A Go pointer `*T` that may be nil is `Option T` (`none` is nil).  Pointers to
  images are compared by address, so an image pointer is `Option Nat`.
* A Go interface value of type `sharedW.Asset` is a record of the methods the
  code calls on it, together with the outcome of the type assertion
  `wal.(*dcr.Asset)`.
* A function that can panic returns `Except Panic _`.
-/

namespace Cryptopower

/-! ## Constants declared outside `src/` -/

/-- Modelled from the spec: `txhelper.TxDirectionSent`, an `int32` constant of
`libwallet/txhelper` (not under `src/`).  Only its distinctness from the other
direction constants is used. -/
def TxDirectionSent : Int := 0

/-- Modelled from the spec: `txhelper.TxDirectionReceived` (see `TxDirectionSent`). -/
def TxDirectionReceived : Int := 1

/-- Modelled from the spec: `txhelper.TxDirectionTransferred` (see `TxDirectionSent`). -/
def TxDirectionTransferred : Int := 2

/-- Modelled from the spec: `txhelper.TxTypeRegular`, a string constant of
`libwallet/txhelper` (not under `src/`); the spec lists the transaction types
regular, mixed, ticket-purchase, vote, revocation. -/
def TxTypeRegular : String := "Regular"

/-- Modelled from the spec: `txhelper.TxTypeTicketPurchase` (see `TxTypeRegular`). -/
def TxTypeTicketPurchase : String := "Ticket"

/-- Modelled from the spec: `txhelper.TxTypeVote` (see `TxTypeRegular`). -/
def TxTypeVote : String := "Vote"

/-- Modelled from the spec: `txhelper.TxTypeRevocation` (see `TxTypeRegular`). -/
def TxTypeRevocation : String := "Revocation"

/-- Modelled from the spec: `txhelper.TxTypeMixed` (see `TxTypeRegular`). -/
def TxTypeMixed : String := "Mixed"

/-- Modelled from the spec: `libutils.TxFilterStaking`, an `int32` filter kind of
`libwallet/utils` (not under `src/`).  The code only hands it to
`TxMatchesFilter`. -/
def TxFilterStaking : Int := 4

/-- Modelled from the spec: `libutils.TxFilterImmature` (see `TxFilterStaking`). -/
def TxFilterImmature : Int := 10

/-- Modelled from the spec: `libutils.TxFilterLive` (see `TxFilterStaking`). -/
def TxFilterLive : Int := 11

/-- Modelled from the spec: `libutils.TxFilterUnmined` (see `TxFilterStaking`). -/
def TxFilterUnmined : Int := 12

/-- Modelled from the spec: `libutils.TxFilterExpired` (see `TxFilterStaking`). -/
def TxFilterExpired : Int := 13

/-- Modelled from the spec: `dcr.TicketStatusUnmined`, a string constant of
`libwallet/assets/dcr` (not under `src/`); the spec lists the ticket statuses
unmined, immature, live, expired, voted-or-revoked, none. -/
def TicketStatusUnmined : String := "unmined"

/-- Modelled from the spec: `dcr.TicketStatusImmature` (see `TicketStatusUnmined`). -/
def TicketStatusImmature : String := "immature"

/-- Modelled from the spec: `dcr.TicketStatusLive` (see `TicketStatusUnmined`). -/
def TicketStatusLive : String := "live"

/-- Modelled from the spec: `dcr.TicketStatusVotedOrRevoked` (see `TicketStatusUnmined`). -/
def TicketStatusVotedOrRevoked : String := "votedrevoked"

/-- Modelled from the spec: `dcr.TicketStatusExpired` (see `TicketStatusUnmined`). -/
def TicketStatusExpired : String := "expired"

/-- Modelled from the spec: `values.StrSent`, a key of the localized string
table of `ui/values` (not under `src/`). -/
def StrSent : String := "sent"

/-- Modelled from the spec: `values.StrReceived` (see `StrSent`). -/
def StrReceived : String := "received"

/-- Modelled from the spec: `values.StrTransferred` (see `StrSent`). -/
def StrTransferred : String := "transferred"

/-- Modelled from the spec: `values.StrUmined` (see `StrSent`). -/
def StrUmined : String := "unmined"

/-- Modelled from the spec: `values.StrImmature` (see `StrSent`). -/
def StrImmature : String := "immature"

/-- Modelled from the spec: `values.StrLive` (see `StrSent`). -/
def StrLive : String := "live"

/-- Modelled from the spec: `values.StrExpired` (see `StrSent`). -/
def StrExpired : String := "expired"

/-- Modelled from the spec: `values.StrVoted` (see `StrSent`). -/
def StrVoted : String := "voted"

/-- Modelled from the spec: `values.StrRevoked` (see `StrSent`). -/
def StrRevoked : String := "revoked"

/-- Modelled from the spec: `values.StrVote` (see `StrSent`). -/
def StrVote : String := "vote"

/-- Modelled from the spec: `values.StrRevocation` (see `StrSent`). -/
def StrRevocation : String := "revocation"

/-- Modelled from the spec: `values.StrMixed` (see `StrSent`). -/
def StrMixed : String := "mixed"

/-! ## Data model -/

/-- The type `color.NRGBA` of the Go standard library: four 8-bit channels. -/
structure NRGBA where
  R : Nat := 0
  G : Nat := 0
  B : Nat := 0
  A : Nat := 0
  deriving DecidableEq, Repr

/-- The fields of `sharedW.Transaction` that `components.go` reads.  The Go field
`Type` is `Type_` here (`Type` is reserved). -/
structure Transaction where
  Hash : String := ""
  Type_ : String := ""
  Direction : Int := 0
  Amount : Int := 0
  BlockHeight : Int := 0
  Timestamp : Int := 0
  MixDenomination : Int := 0
  MixCount : Int := 0
  VoteReward : Int := 0
  DaysToVoteOrRevoke : Int := 0
  deriving DecidableEq, Repr

/-- The icons of `l.Theme.Icons` that the row code selects (image pointers). -/
structure Icons where
  SendIcon : Option Nat
  ReceiveIcon : Option Nat
  Transferred : Option Nat
  TicketUnminedIcon : Option Nat
  TicketImmatureIcon : Option Nat
  TicketLiveIcon : Option Nat
  TicketExpiredIcon : Option Nat
  TicketVotedIcon : Option Nat
  TicketRevokedIcon : Option Nat
  MixedTx : Option Nat
  ConfirmIcon : Option Nat
  PendingIcon : Option Nat
  deriving DecidableEq, Repr

/-- The colours of `l.Theme.Color` that `TransactionTitleIcon` and the transaction
row read. -/
structure Color where
  LightBlue6 : NRGBA
  LightBlue : NRGBA
  Yellow : NRGBA
  OrangeYellow : NRGBA
  Gray6 : NRGBA
  Success2 : NRGBA
  GrayText2 : NRGBA
  Gray4 : NRGBA
  Turquoise700 : NRGBA
  Turquoise300 : NRGBA
  Turquoise100 : NRGBA
  Orange : NRGBA
  Danger : NRGBA
  Orange3 : NRGBA
  Orange2 : NRGBA
  GrayText1 : NRGBA
  deriving DecidableEq, Repr

/-- The type `cryptomaterial.Theme`, reduced to what is read here. -/
structure Theme where
  Icons : Icons
  Color : Color
  deriving DecidableEq, Repr

/-- The type `load.Load`, reduced to its theme.  The pointers `l`, `l.Theme` and
`l.Theme.Color` are taken to be non-nil. -/
structure Load where
  Theme : Theme
  deriving DecidableEq, Repr

/-- The localized string table behind `values.String`: key to display text. -/
structure Locale where
  lookup : String → String

/-- The function `values.String(key)` of `ui/values`, with the active locale
made an explicit argument. -/
def values.String (loc : Locale) (key : String) : String :=
  loc.lookup key

/-- The type `TxStatus` of `components.go`.  The defaults are Go zero values. -/
structure TxStatus where
  Title : String := ""
  Icon : Option Nat := none
  TicketStatus : String := ""
  Color : NRGBA := {}
  ProgressBarColor : NRGBA := {}
  ProgressTrackColor : NRGBA := {}
  Background : NRGBA := {}
  deriving DecidableEq, Repr

/-- The methods of `*dcr.Asset` used beyond the `sharedW.Asset` interface.
`TicketSpender` returns a transaction pointer and an error (`none` is nil). -/
structure DcrAsset where
  TicketSpender : String → Option Transaction × Option String

/-- A non-nil interface value of type `sharedW.Asset`.  `dcrAsset` is the outcome
of the type assertion `wal.(*dcr.Asset)`: `some d` when the dynamic type is
`*dcr.Asset`, `none` for every other implementation (BTC, LTC). -/
structure Asset where
  TxMatchesFilter : Transaction → Int → Bool
  GetBestBlockHeight : Int
  RequiredConfirmations : Int
  dcrAsset : Option DcrAsset

/-- Run-time panics the embedded code can reach. -/
inductive Panic where
  /-- A type assertion `x.(T)` without the comma-ok form, on another dynamic type. -/
  | typeAssertion
  /-- A field access or method call through a nil pointer. -/
  | nilDereference
  deriving DecidableEq, Repr

/-! ## `TransactionTitleIcon` -/

/-- Lines 134-146 of `components.go`: the zero `TxStatus` with title and icon
chosen by the `switch tx.Direction`. -/
def baseTxStatus (loc : Locale) (l : Load) (tx : Transaction) : TxStatus :=
  let txStatus : TxStatus := {}
  if tx.Direction = TxDirectionSent then
    { txStatus with
      Title := values.String loc StrSent
      Icon := l.Theme.Icons.SendIcon }
  else if tx.Direction = TxDirectionReceived then
    { txStatus with
      Title := values.String loc StrReceived
      Icon := l.Theme.Icons.ReceiveIcon }
  else
    { txStatus with
      Title := values.String loc StrTransferred
      Icon := l.Theme.Icons.Transferred }

/-- The function `TransactionTitleIcon(l, wal, tx)` of `components.go`, for
non-nil `l`, `wal` and `tx`.  `.error` is a panic. -/
def TransactionTitleIcon (loc : Locale) (l : Load) (wal : Asset) (tx : Transaction) :
    Except Panic TxStatus :=
  let txStatus := baseTxStatus loc l tx
  -- replace icon for staking tx types
  if wal.TxMatchesFilter tx TxFilterStaking then
    if tx.Type_ = TxTypeTicketPurchase then
      if wal.TxMatchesFilter tx TxFilterUnmined then
        .ok { txStatus with
              Title := values.String loc StrUmined
              Icon := l.Theme.Icons.TicketUnminedIcon
              TicketStatus := TicketStatusUnmined
              Color := l.Theme.Color.LightBlue6
              Background := l.Theme.Color.LightBlue }
      else if wal.TxMatchesFilter tx TxFilterImmature then
        .ok { txStatus with
              Title := values.String loc StrImmature
              Icon := l.Theme.Icons.TicketImmatureIcon
              Color := l.Theme.Color.Yellow
              TicketStatus := TicketStatusImmature
              ProgressBarColor := l.Theme.Color.OrangeYellow
              ProgressTrackColor := l.Theme.Color.Gray6
              Background := l.Theme.Color.Yellow }
      else if wal.TxMatchesFilter tx TxFilterLive then
        .ok { txStatus with
              Title := values.String loc StrLive
              Icon := l.Theme.Icons.TicketLiveIcon
              Color := l.Theme.Color.Success2
              TicketStatus := TicketStatusLive
              ProgressBarColor := l.Theme.Color.Success2
              ProgressTrackColor := l.Theme.Color.Success2
              Background := l.Theme.Color.Success2 }
      else if wal.TxMatchesFilter tx TxFilterExpired then
        .ok { txStatus with
              Title := values.String loc StrExpired
              Icon := l.Theme.Icons.TicketExpiredIcon
              Color := l.Theme.Color.GrayText2
              TicketStatus := TicketStatusExpired
              Background := l.Theme.Color.Gray4 }
      else
        -- ticketSpender, _ := wal.(*dcr.Asset).TicketSpender(tx.Hash)
        match wal.dcrAsset with
        | none => .error Panic.typeAssertion
        | some dcrWal =>
          match (dcrWal.TicketSpender tx.Hash).1 with
          | some ticketSpender =>
            if ticketSpender.Type_ = TxTypeVote then
              .ok { txStatus with
                    Title := values.String loc StrVoted
                    Icon := l.Theme.Icons.TicketVotedIcon
                    Color := l.Theme.Color.Turquoise700
                    TicketStatus := TicketStatusVotedOrRevoked
                    ProgressBarColor := l.Theme.Color.Turquoise300
                    ProgressTrackColor := l.Theme.Color.Turquoise100
                    Background := l.Theme.Color.Success2 }
            else
              .ok { txStatus with
                    Title := values.String loc StrRevoked
                    Icon := l.Theme.Icons.TicketRevokedIcon
                    Color := l.Theme.Color.Orange
                    TicketStatus := TicketStatusVotedOrRevoked
                    ProgressBarColor := l.Theme.Color.Danger
                    ProgressTrackColor := l.Theme.Color.Orange3
                    Background := l.Theme.Color.Orange2 }
          | none => .ok txStatus
    else if tx.Type_ = TxTypeVote then
      .ok { txStatus with
            Title := values.String loc StrVote
            Icon := l.Theme.Icons.TicketVotedIcon
            Color := l.Theme.Color.Turquoise700
            TicketStatus := TicketStatusVotedOrRevoked
            ProgressBarColor := l.Theme.Color.Turquoise300
            ProgressTrackColor := l.Theme.Color.Turquoise100
            Background := l.Theme.Color.Success2 }
    else
      .ok { txStatus with
            Title := values.String loc StrRevocation
            Icon := l.Theme.Icons.TicketRevokedIcon
            Color := l.Theme.Color.Orange
            TicketStatus := TicketStatusVotedOrRevoked
            ProgressBarColor := l.Theme.Color.Danger
            ProgressTrackColor := l.Theme.Color.Orange3
            Background := l.Theme.Color.Orange2 }
  else if tx.Type_ = TxTypeMixed then
    .ok { txStatus with
          Title := values.String loc StrMixed
          Icon := l.Theme.Icons.MixedTx }
  else
    .ok txStatus

/-! ## The ticket categories of the specification -/

/-- A ticket category as the specification lists it: the filter kind that
selects it, the key of its title and its ticket status. -/
structure TicketCategory where
  filter : Int
  title : String
  status : String
  deriving DecidableEq, Repr

/-- The four ticket categories in the order in which the specification tries
their filters: unmined, immature, live, expired. -/
def specTicketCategories : List TicketCategory :=
  [ ⟨TxFilterUnmined, StrUmined, TicketStatusUnmined⟩,
    ⟨TxFilterImmature, StrImmature, TicketStatusImmature⟩,
    ⟨TxFilterLive, StrLive, TicketStatusLive⟩,
    ⟨TxFilterExpired, StrExpired, TicketStatusExpired⟩ ]

/-! ## Machine integers -/

/-- The constant `Uint32Size` of `components.go`. -/
def Uint32Size : Nat := 32

/-- The constant `MaxInt32 = 1<<(Uint32Size-1) - 1` of `components.go`. -/
def MaxInt32 : Int := 2 ^ (Uint32Size - 1) - 1

/-- The `int32` that holds the arithmetic result `x` after it wraps around. -/
def wrapInt32 (x : Int) : Int :=
  (x + 2 ^ 31) % 2 ^ 32 - 2 ^ 31

/-! ## `TxConfirmations` and the status label of a transaction row -/

/-- Modelled from the spec: `values.StrUnconfirmedTx`, a key of the localized
string table of `ui/values` (not under `src/`). -/
def StrUnconfirmedTx : String := "unconfirmed_tx"

/-- Modelled from the spec: `values.StrTxStatusPending` (see `StrUnconfirmedTx`);
its text takes the two counts of "Pending (current/required)". -/
def StrTxStatusPending : String := "tx_status_pending"

/-- The function `TxConfirmations(wallet, transaction)` of `components.go`, for a
non-nil wallet and transaction.  Both heights and the result are `int32`. -/
def TxConfirmations (wallet : Asset) (transaction : Transaction) : Int :=
  if transaction.BlockHeight ≠ -1 then
    wrapInt32 (wrapInt32 (wallet.GetBestBlockHeight - transaction.BlockHeight) + 1)
  else
    0

/-- Modelled from the spec: `fmt.Sprintf` restricted to the verb `%d` with
integer arguments, as `values.StringF` uses it for "Pending (current/required)". -/
def sprintfInts : List Char → List Int → List Char
  | [], _ => []
  | '%' :: 'd' :: rest, a :: args => (toString a).toList ++ sprintfInts rest args
  | c :: rest, args => c :: sprintfInts rest args

/-- Modelled from the spec: the function `values.StringF(key, args...)` of
`ui/values` (not under `src/`): the localized text of `key` used as the format
of `fmt.Sprintf`. -/
def StringF (loc : Locale) (key : String) (args : List Int) : String :=
  String.mk (sprintfInts (values.String loc key).toList args)

/-- The local time zone behind `time.Unix(sec, 0).Format(layout)` of the Go
standard library: Unix seconds and a layout to the rendered text. -/
structure TimeZone where
  Format : Int → String → String

/-- A text label (`cryptomaterial.Label`), reduced to its text and colour. -/
structure Label where
  Text : String
  Color : NRGBA
  deriving DecidableEq, Repr

/-- Lines 403-414 of `LayoutTransactionRow`: the status label chosen from the
confirmation count `txConfirmations` and `reqConf`. -/
def transactionRowStatus (loc : Locale) (tz : TimeZone) (l : Load) (tx : Transaction)
    (txConfirmations reqConf : Int) : Label :=
  if txConfirmations < 1 then
    { Text := values.String loc StrUnconfirmedTx, Color := l.Theme.Color.GrayText1 }
  else if txConfirmations ≥ reqConf then
    let date := tz.Format tx.Timestamp "Jan 2, 2006"
    let timeSplit := tz.Format tx.Timestamp "03:04:05 PM"
    { Text := date ++ " at " ++ timeSplit, Color := l.Theme.Color.GrayText2 }
  else
    { Text := StringF loc StrTxStatusPending [txConfirmations, reqConf]
      Color := l.Theme.Color.GrayText1 }

/-- Lines 400-414 of `LayoutTransactionRow`: the status label of the row of `tx`
in the wallet `wal`. -/
def LayoutTransactionRow.status (loc : Locale) (tz : TimeZone) (l : Load) (wal : Asset)
    (tx : Transaction) : Label :=
  transactionRowStatus loc tz l tx (TxConfirmations wal tx) wal.RequiredConfirmations

/-! ## The amount of a transaction row -/

/-- The function `strings.Contains(s, substr)` of the Go standard library. -/
def strings.Contains (s substr : String) : Bool :=
  decide (substr.toList <:+: s.toList)

/-- Lines 269-271 of `LayoutTransactionRow`: the sign rule applied to the
formatted amount `amount` of `tx`. -/
def signAmount (tx : Transaction) (amount : String) : String :=
  if tx.Direction = TxDirectionSent && !strings.Contains amount "-" then
    "-" ++ amount
  else
    amount

/-- Lines 266-273 of `LayoutTransactionRow`: the amount text shown for a regular
transaction; `none` when the row shows the title instead.  `toAmount v` is
`wal.ToAmount(v).String()`. -/
def LayoutTransactionRow.amount (toAmount : Int → String) (tx : Transaction) : Option String :=
  if tx.Type_ = TxTypeRegular then
    some (signAmount tx (toAmount tx.Amount))
  else
    none

/-! ## `TxPageDropDownFields` -/

/-- Modelled from the spec: `libutils.BTCWalletAsset`, a constant of the string
type `libutils.AssetType` of `libwallet/utils` (not under `src/`). -/
def BTCWalletAsset : String := "BTC"

/-- Modelled from the spec: `libutils.DCRWalletAsset` (see `BTCWalletAsset`). -/
def DCRWalletAsset : String := "DCR"

/-- Modelled from the spec: `libutils.LTCWalletAsset` (see `BTCWalletAsset`). -/
def LTCWalletAsset : String := "LTC"

/-- Modelled from the spec: `libutils.TxFilterAll` (see `TxFilterStaking`). -/
def TxFilterAll : Int := 0

/-- Modelled from the spec: `libutils.TxFilterSent` (see `TxFilterStaking`). -/
def TxFilterSent : Int := 1

/-- Modelled from the spec: `libutils.TxFilterReceived` (see `TxFilterStaking`). -/
def TxFilterReceived : Int := 2

/-- Modelled from the spec: `libutils.TxFilterTransferred` (see `TxFilterStaking`). -/
def TxFilterTransferred : Int := 3

/-- Modelled from the spec: `libutils.TxFilterMixed` (see `TxFilterStaking`). -/
def TxFilterMixed : Int := 7

/-- Modelled from the spec: `libutils.TxFilterVoted` (see `TxFilterStaking`). -/
def TxFilterVoted : Int := 8

/-- Modelled from the spec: `libutils.TxFilterRevoked` (see `TxFilterStaking`). -/
def TxFilterRevoked : Int := 9

/-- Modelled from the spec: `libutils.TxFilterAllTx` (see `TxFilterStaking`). -/
def TxFilterAllTx : Int := 15

/-- Modelled from the spec: `values.StrAll` (see `StrSent`). -/
def StrAll : String := "all"

/-- A Go `map[string]int32`: its entries, with pairwise distinct keys.  The order
of the list has no meaning. -/
abbrev GoMap := List (String × Int)

/-- The assignment `m[k] = v` on a Go map. -/
def GoMap.set (m : GoMap) (k : String) (v : Int) : GoMap :=
  if m.any (fun e => e.1 == k) then
    m.map (fun e => if e.1 == k then (k, v) else e)
  else
    m ++ [(k, v)]

/-- The lookup `v, ok := m[k]` on a Go map. -/
def GoMap.get? (m : GoMap) (k : String) : Option Int :=
  (m.find? (fun e => e.1 == k)).map (fun e => e.2)

/-- The value of a map literal whose keys are evaluated at run time: the entries
are stored in the order written, a repeated key overwrites. -/
def GoMap.literal (entries : List (String × Int)) : GoMap :=
  entries.foldl (fun m e => m.set e.1 e.2) []

/-- The function `TxPageDropDownFields(wType, tabIndex)` of `components.go`:
the map `mapInfo` and the key list `keysInfo`.  Without a matching case both
stay nil (empty). -/
def TxPageDropDownFields (loc : Locale) (wType : String) (tabIndex : Int) :
    GoMap × List String :=
  if wType = BTCWalletAsset ∧ tabIndex = 0 then
    -- BTC Transactions Activities dropdown fields.
    (GoMap.literal
      [ (values.String loc StrAll, TxFilterAll),
        (values.String loc StrSent, TxFilterSent),
        (values.String loc StrReceived, TxFilterReceived) ],
      [ values.String loc StrAll,
        values.String loc StrSent,
        values.String loc StrReceived ])
  else if wType = LTCWalletAsset ∧ tabIndex = 0 then
    -- LTC Transactions Activities dropdown fields.
    (GoMap.literal
      [ (values.String loc StrAll, TxFilterAll),
        (values.String loc StrSent, TxFilterSent),
        (values.String loc StrReceived, TxFilterReceived) ],
      [ values.String loc StrAll,
        values.String loc StrSent,
        values.String loc StrReceived ])
  else if wType = DCRWalletAsset ∧ tabIndex = 0 then
    -- DCR Transactions Activities dropdown fields.
    (GoMap.literal
      [ (values.String loc StrAll, TxFilterAllTx),
        (values.String loc StrSent, TxFilterSent),
        (values.String loc StrReceived, TxFilterReceived),
        (values.String loc StrTransferred, TxFilterTransferred),
        (values.String loc StrMixed, TxFilterMixed) ],
      [ values.String loc StrAll,
        values.String loc StrSent,
        values.String loc StrReceived,
        values.String loc StrTransferred,
        values.String loc StrMixed ])
  else if wType = DCRWalletAsset ∧ tabIndex = 1 then
    -- DCR staking Activities dropdown fields.
    (GoMap.literal
      [ (values.String loc StrAll, TxFilterStaking),
        (values.String loc StrVote, TxFilterVoted),
        (values.String loc StrRevocation, TxFilterRevoked) ],
      [ values.String loc StrAll,
        values.String loc StrVote,
        values.String loc StrRevocation ])
  else
    ([], [])

/-! ## `GetTicketPurchaseAccount` -/

/-- Modelled from the spec: `sharedW.SpendUnmixedFundsKey`, a configuration key of
`libwallet/assets/wallet` (not under `src/`). -/
def SpendUnmixedFundsKey : String := "spend_unmixed_funds"

/-- Modelled from the spec: `sharedW.AccountMixerConfigSet` (see
`SpendUnmixedFundsKey`). -/
def AccountMixerConfigSet : String := "account_mixer_config_set"

/-- The type `sharedW.Balance`: the seven balances of an account, as `int64`
amounts. -/
structure Balance where
  Total : Int := 0
  Spendable : Int := 0
  ImmatureReward : Int := 0
  ImmatureStakeGeneration : Int := 0
  LockedByTickets : Int := 0
  VotingAuthority : Int := 0
  UnConfirmed : Int := 0
  deriving DecidableEq, Repr

/-- The fields of `sharedW.Account` that `components.go` reads. -/
structure Account where
  Number : Int := 0
  Name : String := ""
  Balance : Balance := {}
  deriving DecidableEq, Repr

/-- The result of `AutoTicketsBuyerConfig()`, reduced to the purchase account. -/
structure TicketBuyerConfig where
  PurchaseAccount : Int
  deriving DecidableEq, Repr

/-- The methods of a non-nil `*dcr.Asset` that `GetTicketPurchaseAccount` calls.
`GetAccount` returns an account pointer and an error (`none` is nil). -/
structure DcrAccounts where
  AutoTicketsBuyerConfig : TicketBuyerConfig
  MixedAccountNumber : Int
  ReadBoolConfigValueForKey : String → Bool → Bool
  GetAccount : Int → Option Account × Option String

/-- The function `GetTicketPurchaseAccount(selectedWallet)` of `components.go`:
the named results `acct` and `err`. -/
def GetTicketPurchaseAccount (selectedWallet : DcrAccounts) : Option Account × Option String :=
  let tbConfig := selectedWallet.AutoTicketsBuyerConfig
  let isPurchaseAccountSet := tbConfig.PurchaseAccount != -1
  let isMixerAccountSet := tbConfig.PurchaseAccount == selectedWallet.MixedAccountNumber
  let isSpendUnmixedAllowed := selectedWallet.ReadBoolConfigValueForKey SpendUnmixedFundsKey false
  let isAccountMixerConfigSet :=
    selectedWallet.ReadBoolConfigValueForKey AccountMixerConfigSet false
  if isPurchaseAccountSet then
    let (acct, err) := selectedWallet.GetAccount tbConfig.PurchaseAccount
    if isAccountMixerConfigSet && !isSpendUnmixedAllowed && isMixerAccountSet && err == none then
      -- Mixer account is set and spending from unmixed account is blocked.
      (acct, err)
    else if isSpendUnmixedAllowed && err == none then
      -- Spending from unmixed account is allowed. Choose the set account whether its mixed or not.
      (acct, err)
    else
      -- invalid account found. Set it to nil
      (none, err)
  else
    (none, none)

/-! ## `SecondsToDays` -/

/-- The function `divMod(numerator, denominator)` of `components.go` for a
non-zero denominator: Go integer division truncates toward zero.  (Go panics
on a zero denominator; the only call passes 86400.) -/
def divMod (numerator denominator : Int) : Int × Int :=
  (Int.tdiv numerator denominator, Int.tmod numerator denominator)

/-- The method `time.Duration.String()` of the Go standard library for a
duration of `secs` whole seconds: hours, minutes and seconds, leading zero
units left out ("1h1m1s", "5m0s", "7s", "0s"). -/
def durationString (secs : Int) : String :=
  if secs = 0 then
    "0s"
  else
    let u := secs.natAbs
    let neg := if secs < 0 then "-" else ""
    let m := u / 60
    let h := m / 60
    let hours := if h > 0 then toString h ++ "h" else ""
    let minutes := if m > 0 then hours ++ toString (m % 60) ++ "m" else ""
    neg ++ minutes ++ toString (u % 60) ++ "s"

/-- The function `SecondsToDays(totalTimeLeft)` of `components.go`.  `timeLeft`
is kept in seconds (`time.Duration(r) * time.Second`). -/
def SecondsToDays (totalTimeLeft : Int) : String :=
  let (q, r) := divMod totalTimeLeft (24 * 60 * 60)
  let timeLeft := r
  if q > 0 then
    toString q ++ "d" ++ durationString timeLeft
  else
    durationString timeLeft

/-! ## `InputsNotEmpty` -/

/-- A non-nil `*widget.Editor`, reduced to the result of `Text()`. -/
structure Editor where
  Text : String
  deriving DecidableEq, Repr

/-- The function `InputsNotEmpty(editors...)` of `components.go`. -/
def InputsNotEmpty : List Editor → Bool
  | [] => true
  | e :: editors => if e.Text = "" then false else InputsNotEmpty editors

/-! ## The staking overview page (`ui/page/staking/stake_overview.go`) -/

/-- Modelled from the spec: `cryptomaterial.Switch` (not under `src/`), reduced
to whether it is checked and whether it is enabled. -/
structure Switch where
  checked : Bool := false
  enabled : Bool := true
  deriving DecidableEq, Repr

/-- Modelled from the spec: the method `SetEnabled(value)` of
`cryptomaterial.Switch` (not under `src/`): the switch is enabled exactly when
`value` is true. -/
def Switch.SetEnabled (s : Switch) (value : Bool) : Switch :=
  { s with enabled := value }

/-- The methods of `pg.WL.SelectedWallet.Wallet` that the staking page reads. -/
structure SelectedWallet where
  IsSynced : Bool
  IsWatchingOnlyWallet : Bool
  deriving DecidableEq, Repr

/-- The type `Page` of package `staking`, reduced to the switch `stake`, the
text `ticketPrice` and the selected wallet. -/
structure StakingPage where
  stake : Switch := {}
  ticketPrice : String := ""
  wallet : SelectedWallet
  deriving DecidableEq, Repr

/-- The method `setStakingButtonsState()` of the staking page. -/
def StakingPage.setStakingButtonsState (pg : StakingPage) : StakingPage :=
  -- disable auto ticket purchase if wallet is not synced
  { pg with
    stake := pg.stake.SetEnabled (pg.wallet.IsSynced || !pg.wallet.IsWatchingOnlyWallet) }

/-! ## `fetchTicketPrice` -/

/-- Modelled from the spec: `values.StrWalletNotSynced` (see `StrSent`). -/
def StrWalletNotSynced : String := "wallet_not_synced"

/-- The type `dcr.TicketPriceResponse` of `libwallet/assets/dcr`, the result of
`TicketPrice()`: the price in atoms and the block height. -/
structure TicketPriceResponse where
  TicketPrice : Int
  Height : Int
  deriving DecidableEq, Repr

/-- What a method of the staking page does besides changing the page. -/
inductive Effect where
  /-- The call `pg.dcrImpl.TicketPrice()`: the ticket price is requested from the
  backend. -/
  | ticketPriceRequested
  /-- The call `log.Error(err)`. -/
  | errorLogged (err : String)
  /-- An error modal with this text is shown on the parent window. -/
  | errorModalShown (text : String)
  deriving DecidableEq, Repr

/-- The method `fetchTicketPrice()` of the staking page: the page afterwards and
the effects in the order they happen.  `backend` is what
`pg.dcrImpl.TicketPrice()` returns (a response pointer and an error) and
`amountString v` is `dcrutil.Amount(v).String()`. -/
def StakingPage.fetchTicketPrice (loc : Locale) (amountString : Int → String)
    (backend : Option TicketPriceResponse × Option String) (pg : StakingPage) :
    Except Panic (StakingPage × List Effect) :=
  -- fetch ticket price only when the wallet is synced
  let (ticketPrice, err) := backend
  match err with
  | some e =>
    if !pg.wallet.IsSynced then
      .ok ({ pg with ticketPrice := amountString 0 },
        [Effect.ticketPriceRequested, Effect.errorLogged e,
          Effect.errorModalShown (values.String loc StrWalletNotSynced)])
    else
      match ticketPrice with
      | some response =>
        .ok ({ pg with ticketPrice := amountString response.TicketPrice },
          [Effect.ticketPriceRequested])
      | none => .error Panic.nilDereference
  | none =>
    match ticketPrice with
    | some response =>
      .ok ({ pg with ticketPrice := amountString response.TicketPrice },
        [Effect.ticketPriceRequested])
    | none => .error Panic.nilDereference

/-! ## `CalculateTotalWalletsBalance` and `CalculateMixedAccountBalance` -/

/-- The `int64` that holds the arithmetic result `x` after it wraps around. -/
def wrapInt64 (x : Int) : Int :=
  (x + 2 ^ 63) % 2 ^ 64 - 2 ^ 63

/-- The type `CummulativeWalletsBalance` of `components.go`.  Each
`sharedW.AssetAmount` is held as its `int64` value (`ToInt()`), so `ToAmount`
is the identity. -/
structure CummulativeWalletsBalance where
  Total : Int := 0
  Spendable : Int := 0
  ImmatureReward : Int := 0
  ImmatureStakeGeneration : Int := 0
  LockedByTickets : Int := 0
  VotingAuthority : Int := 0
  UnConfirmed : Int := 0
  deriving DecidableEq, Repr

/-- The methods of the non-nil `l.WL.SelectedWallet.Wallet` that
`CalculateTotalWalletsBalance` calls.  `GetAccountsRaw` returns a pointer to
the accounts and an error (`none` is nil). -/
structure BalanceWallet where
  GetAccountsRaw : Option (List Account) × Option String
  GetAssetType : String

/-- The body of the loop of `CalculateTotalWalletsBalance`: the seven running
sums (held in a `CummulativeWalletsBalance`) after one more account.  `isDCR`
is `GetAssetType() == libutils.DCRWalletAsset`. -/
def addAccountBalance (isDCR : Bool) (sums : CummulativeWalletsBalance) (account : Account) :
    CummulativeWalletsBalance :=
  let sums :=
    { sums with
      Total := wrapInt64 (sums.Total + account.Balance.Total)
      Spendable := wrapInt64 (sums.Spendable + account.Balance.Spendable)
      ImmatureReward := wrapInt64 (sums.ImmatureReward + account.Balance.ImmatureReward) }
  if isDCR then
    -- Fields required only by DCR
    { sums with
      ImmatureStakeGeneration :=
        wrapInt64 (sums.ImmatureStakeGeneration + account.Balance.ImmatureStakeGeneration)
      LockedByTickets := wrapInt64 (sums.LockedByTickets + account.Balance.LockedByTickets)
      VotingAuthority := wrapInt64 (sums.VotingAuthority + account.Balance.VotingAuthority)
      UnConfirmed := wrapInt64 (sums.UnConfirmed + account.Balance.UnConfirmed) }
  else
    sums

/-- The function `CalculateTotalWalletsBalance(l)` of `components.go` on the
selected wallet of `l`: the balance pointer and the error. -/
def CalculateTotalWalletsBalance (wallet : BalanceWallet) :
    Except Panic (Option CummulativeWalletsBalance × Option String) :=
  let (accountsResult, err) := wallet.GetAccountsRaw
  match err with
  | some e => .ok (none, some e)
  | none =>
    match accountsResult with
    | none => .error Panic.nilDereference
    | some accounts =>
      let cumm := accounts.foldl (addAccountBalance (wallet.GetAssetType == DCRWalletAsset)) {}
      .ok (some cumm, none)

/-- The seven fields of a `CummulativeWalletsBalance` copied from the balance
of `account` (the struct literal at the end of `CalculateMixedAccountBalance`). -/
def balanceOf (account : Account) : CummulativeWalletsBalance :=
  { Total := account.Balance.Total
    Spendable := account.Balance.Spendable
    ImmatureReward := account.Balance.ImmatureReward
    ImmatureStakeGeneration := account.Balance.ImmatureStakeGeneration
    LockedByTickets := account.Balance.LockedByTickets
    VotingAuthority := account.Balance.VotingAuthority
    UnConfirmed := account.Balance.UnConfirmed }

/-- The function `CalculateMixedAccountBalance(selectedWallet)` of
`components.go`: the balance pointer and the error.  `none` is the nil wallet. -/
def CalculateMixedAccountBalance (selectedWallet : Option DcrAccounts) :
    Except Panic (Option CummulativeWalletsBalance × Option String) :=
  match selectedWallet with
  | none => .ok (none, some "mixed account only supported by DCR asset")
  | some wallet =>
    -- ignore the returned because an invalid purchase account was set previously.
    match (GetTicketPurchaseAccount wallet).1 with
    | some account => .ok (some (balanceOf account), none)
    | none =>
      -- A valid purchase account hasn't been set. Use default mixed account.
      let (account, err) := wallet.GetAccount wallet.MixedAccountNumber
      match err with
      | some e => .ok (none, some e)
      | none =>
        match account with
        | some account => .ok (some (balanceOf account), none)
        | none => .error Panic.nilDereference

/-! ## The status icon of a transaction row -/

/-- Lines 496-499 of `LayoutTransactionRow`: the status icon chosen from the
confirmation count and the required confirmations. -/
def transactionRowStatusIcon (l : Load) (txConfirmations reqConf : Int) : Option Nat :=
  if txConfirmations < reqConf then
    l.Theme.Icons.PendingIcon
  else
    l.Theme.Icons.ConfirmIcon

/-- Lines 491-511 of `LayoutTransactionRow`: the status icon laid out in the
row of `tx`; `none` when the row shows no status icon. -/
def LayoutTransactionRow.statusIcon (l : Load) (wal : Asset) (tx : Transaction)
    (isTxPage : Bool) : Option (Option Nat) :=
  let isMixedOrRegular := tx.Type_ = TxTypeMixed ∨ tx.Type_ = TxTypeRegular
  if !isTxPage ∧ ¬ isMixedOrRegular then
    none
  else
    some (transactionRowStatusIcon l (TxConfirmations wal tx) wal.RequiredConfirmations)

/-! ## Concrete inputs -/

/-- A locale whose display text is the key itself. -/
def keyLocale : Locale := ⟨fun key => key⟩

/-- A theme with pairwise distinct icons and colours. -/
def sampleLoad : Load :=
  { Theme :=
    { Icons :=
      { SendIcon := some 1, ReceiveIcon := some 2, Transferred := some 3,
        TicketUnminedIcon := some 4, TicketImmatureIcon := some 5, TicketLiveIcon := some 6,
        TicketExpiredIcon := some 7, TicketVotedIcon := some 8, TicketRevokedIcon := some 9,
        MixedTx := some 10, ConfirmIcon := some 11, PendingIcon := some 12 }
      Color :=
      { LightBlue6 := ⟨1, 0, 0, 255⟩, LightBlue := ⟨2, 0, 0, 255⟩, Yellow := ⟨3, 0, 0, 255⟩,
        OrangeYellow := ⟨4, 0, 0, 255⟩, Gray6 := ⟨5, 0, 0, 255⟩, Success2 := ⟨6, 0, 0, 255⟩,
        GrayText2 := ⟨7, 0, 0, 255⟩, Gray4 := ⟨8, 0, 0, 255⟩, Turquoise700 := ⟨9, 0, 0, 255⟩,
        Turquoise300 := ⟨10, 0, 0, 255⟩, Turquoise100 := ⟨11, 0, 0, 255⟩, Orange := ⟨12, 0, 0, 255⟩,
        Danger := ⟨13, 0, 0, 255⟩, Orange3 := ⟨14, 0, 0, 255⟩, Orange2 := ⟨15, 0, 0, 255⟩,
        GrayText1 := ⟨16, 0, 0, 255⟩ } } }

/-- A wallet of dynamic type `*dcr.Asset` whose `TxMatchesFilter` answers yes
exactly for the filter kinds in `filters` and whose `TicketSpender` always
returns `spender`. -/
def dcrWallet (filters : List Int) (spender : Option Transaction × Option String) : Asset :=
  { TxMatchesFilter := fun _ f => filters.contains f
    GetBestBlockHeight := 1000
    RequiredConfirmations := 2
    dcrAsset := some { TicketSpender := fun _ => spender } }

/-- A wallet of another dynamic type (BTC, LTC) whose `TxMatchesFilter` answers
yes exactly for the filter kinds in `filters`. -/
def otherWallet (filters : List Int) : Asset :=
  { TxMatchesFilter := fun _ f => filters.contains f
    GetBestBlockHeight := 1000
    RequiredConfirmations := 6
    dcrAsset := none }

/-- A ticket purchase, sent from the wallet. -/
def ticketTx : Transaction :=
  { Hash := "t1", Type_ := TxTypeTicketPurchase, Direction := TxDirectionSent, BlockHeight := 998 }

/-- A vote that spends `ticketTx`. -/
def voteTx : Transaction :=
  { Hash := "v1", Type_ := TxTypeVote, Direction := TxDirectionReceived, BlockHeight := 999 }

/-- A revocation that spends `ticketTx`. -/
def revocationTx : Transaction :=
  { Hash := "r1", Type_ := TxTypeRevocation, Direction := TxDirectionReceived, BlockHeight := 999 }

/-- A received regular transaction. -/
def regularTx : Transaction :=
  { Hash := "a1", Type_ := TxTypeRegular, Direction := TxDirectionReceived, BlockHeight := 998 }

/-- A sent coin-mixing transaction. -/
def mixedTx : Transaction :=
  { Hash := "m1", Type_ := TxTypeMixed, Direction := TxDirectionSent, BlockHeight := 998 }

/-- The English texts of the keys used by the status label; other keys show
as themselves. -/
def enLocale : Locale :=
  ⟨fun key =>
    if key = StrUnconfirmedTx then "Unconfirmed"
    else if key = StrTxStatusPending then "Pending (%d/%d)"
    else key⟩

/-- A time zone that renders the seconds as a number, whatever the layout. -/
def sampleTimeZone : TimeZone := ⟨fun sec _ => toString sec⟩

/-- An amount rendering: the number of atoms followed by the unit. -/
def sampleToAmount (v : Int) : String := toString v ++ " DCR"

/-- A regular transaction sent from the wallet. -/
def sentTx : Transaction :=
  { Hash := "s1", Type_ := TxTypeRegular, Direction := TxDirectionSent, Amount := 5,
    BlockHeight := 998 }

/-- A transaction recorded five blocks above the best block of the sample wallets. -/
def aheadTx : Transaction :=
  { Hash := "f1", Type_ := TxTypeRegular, Direction := TxDirectionReceived, BlockHeight := 1005 }

/-- A transaction in the block of height 0. -/
def genesisTx : Transaction :=
  { Hash := "g1", Type_ := TxTypeRegular, Direction := TxDirectionReceived, BlockHeight := 0 }

/-- A wallet whose best block height is the largest `int32`. -/
def tallWallet : Asset :=
  { TxMatchesFilter := fun _ _ => false
    GetBestBlockHeight := 2147483647
    RequiredConfirmations := 6
    dcrAsset := none }

/-- A DCR wallet whose ticket purchase account 1 is the mixed account, with the
account mixer configured and unmixed spending not allowed. -/
def mixerAccounts : DcrAccounts :=
  { AutoTicketsBuyerConfig := { PurchaseAccount := 1 }
    MixedAccountNumber := 1
    ReadBoolConfigValueForKey := fun key _ => key == AccountMixerConfigSet
    GetAccount := fun n => (some { Number := n, Name := "mixed", Balance := { Total := 7 } }, none) }

/-- A staking page on a wallet that is neither synced nor watching-only. -/
def unsyncedPage : StakingPage :=
  { stake := { checked := false, enabled := false }
    ticketPrice := ""
    wallet := { IsSynced := false, IsWatchingOnlyWallet := false } }

/-- A ticket price answer of the backend. -/
def samplePrice : TicketPriceResponse := { TicketPrice := 12345, Height := 1000 }

/-- Two accounts with their balances. -/
def twoAccounts : List Account :=
  [ { Number := 0, Name := "default"
      Balance := { Total := 10, Spendable := 6, ImmatureReward := 1,
                   ImmatureStakeGeneration := 1, LockedByTickets := 2,
                   VotingAuthority := 0, UnConfirmed := 3 } },
    { Number := 1, Name := "mixed"
      Balance := { Total := 5, Spendable := 5, ImmatureReward := 0,
                   ImmatureStakeGeneration := 2, LockedByTickets := 0,
                   VotingAuthority := 4, UnConfirmed := 0 } } ]

/-- A DCR wallet with the accounts `twoAccounts`. -/
def twoAccountWallet : BalanceWallet :=
  { GetAccountsRaw := (some twoAccounts, none)
    GetAssetType := DCRWalletAsset }

/-- A DCR wallet without a ticket purchase account whose mixed account 2 cannot
be read. -/
def brokenAccounts : DcrAccounts :=
  { AutoTicketsBuyerConfig := { PurchaseAccount := -1 }
    MixedAccountNumber := 2
    ReadBoolConfigValueForKey := fun _ defaultValue => defaultValue
    GetAccount := fun _ => (none, some "account not found") }

/-! ## Theorems about `TransactionTitleIcon` -/

/-- The base status has an empty ticket status and zero colours. -/
theorem baseTxStatus_frame (loc : Locale) (l : Load) (tx : Transaction) :
    (baseTxStatus loc l tx).TicketStatus = "" ∧
    (baseTxStatus loc l tx).Color = ⟨0, 0, 0, 0⟩ ∧
    (baseTxStatus loc l tx).ProgressBarColor = ⟨0, 0, 0, 0⟩ ∧
    (baseTxStatus loc l tx).ProgressTrackColor = ⟨0, 0, 0, 0⟩ ∧
    (baseTxStatus loc l tx).Background = ⟨0, 0, 0, 0⟩ := by
  unfold baseTxStatus
  split_ifs <;> simp

/-- The title and icon of the base status follow the direction alone. -/
theorem baseTxStatus_direction (loc : Locale) (l : Load) (tx : Transaction) :
    (tx.Direction = TxDirectionSent →
      (baseTxStatus loc l tx).Title = values.String loc StrSent ∧
      (baseTxStatus loc l tx).Icon = l.Theme.Icons.SendIcon) ∧
    (tx.Direction = TxDirectionReceived →
      (baseTxStatus loc l tx).Title = values.String loc StrReceived ∧
      (baseTxStatus loc l tx).Icon = l.Theme.Icons.ReceiveIcon) ∧
    (tx.Direction ≠ TxDirectionSent → tx.Direction ≠ TxDirectionReceived →
      (baseTxStatus loc l tx).Title = values.String loc StrTransferred ∧
      (baseTxStatus loc l tx).Icon = l.Theme.Icons.Transferred) := by
  refine ⟨?_, ?_, ?_⟩
  · intro h
    simp [baseTxStatus, h]
  · intro h
    have hne : ¬ (TxDirectionReceived = TxDirectionSent) := by decide
    simp [baseTxStatus, h, hne]
  · intro h1 h2
    simp [baseTxStatus, h1, h2]

/-- C1: a transaction that does not match the staking filter and is not of type
Mixed gets exactly the base status of its direction: "Sent" with the send icon,
"Received" with the receive icon, otherwise "Transferred" with the transferred
icon; the ticket status is empty and the four colours are zero. -/
theorem transactionTitleIcon_base_status (loc : Locale) (l : Load) (wal : Asset)
    (tx : Transaction)
    (hstaking : wal.TxMatchesFilter tx TxFilterStaking = false)
    (hmixed : tx.Type_ ≠ TxTypeMixed) :
    ∃ s, TransactionTitleIcon loc l wal tx = .ok s ∧
      (tx.Direction = TxDirectionSent →
        s.Title = values.String loc StrSent ∧ s.Icon = l.Theme.Icons.SendIcon) ∧
      (tx.Direction = TxDirectionReceived →
        s.Title = values.String loc StrReceived ∧ s.Icon = l.Theme.Icons.ReceiveIcon) ∧
      (tx.Direction ≠ TxDirectionSent → tx.Direction ≠ TxDirectionReceived →
        s.Title = values.String loc StrTransferred ∧ s.Icon = l.Theme.Icons.Transferred) ∧
      s.TicketStatus = "" ∧ s.Color = ⟨0, 0, 0, 0⟩ ∧ s.ProgressBarColor = ⟨0, 0, 0, 0⟩ ∧
      s.ProgressTrackColor = ⟨0, 0, 0, 0⟩ ∧ s.Background = ⟨0, 0, 0, 0⟩ := by
  have h : TransactionTitleIcon loc l wal tx = .ok (baseTxStatus loc l tx) := by
    simp [TransactionTitleIcon, hstaking, hmixed]
  obtain ⟨d1, d2, d3⟩ := baseTxStatus_direction loc l tx
  exact ⟨_, h, d1, d2, d3, baseTxStatus_frame loc l tx⟩

/-- Witness of C1: a received regular transaction in a wallet that matches no
filter. -/
theorem transactionTitleIcon_base_status_witness :
    (otherWallet []).TxMatchesFilter regularTx TxFilterStaking = false ∧
    regularTx.Type_ ≠ TxTypeMixed ∧
    ∃ s, TransactionTitleIcon keyLocale sampleLoad (otherWallet []) regularTx = .ok s ∧
      (regularTx.Direction = TxDirectionSent →
        s.Title = values.String keyLocale StrSent ∧ s.Icon = sampleLoad.Theme.Icons.SendIcon) ∧
      (regularTx.Direction = TxDirectionReceived →
        s.Title = values.String keyLocale StrReceived ∧
        s.Icon = sampleLoad.Theme.Icons.ReceiveIcon) ∧
      (regularTx.Direction ≠ TxDirectionSent → regularTx.Direction ≠ TxDirectionReceived →
        s.Title = values.String keyLocale StrTransferred ∧
        s.Icon = sampleLoad.Theme.Icons.Transferred) ∧
      s.TicketStatus = "" ∧ s.Color = ⟨0, 0, 0, 0⟩ ∧ s.ProgressBarColor = ⟨0, 0, 0, 0⟩ ∧
      s.ProgressTrackColor = ⟨0, 0, 0, 0⟩ ∧ s.Background = ⟨0, 0, 0, 0⟩ :=
  ⟨rfl, by decide,
    transactionTitleIcon_base_status keyLocale sampleLoad (otherWallet []) regularTx rfl
      (by decide)⟩

/-- C2: for a ticket purchase that matches the staking filter, the first of the
filters unmined, immature, live, expired that the transaction matches decides
the title and the ticket status, also when a later filter matches too; when
exactly one of the four matches, the ticket status is that category. -/
theorem transactionTitleIcon_ticket_first_match (loc : Locale) (l : Load) (wal : Asset)
    (tx : Transaction)
    (hstaking : wal.TxMatchesFilter tx TxFilterStaking = true)
    (htype : tx.Type_ = TxTypeTicketPurchase) :
    (∀ c, specTicketCategories.find? (fun k => wal.TxMatchesFilter tx k.filter) = some c →
      ∃ s, TransactionTitleIcon loc l wal tx = .ok s ∧
        s.Title = values.String loc c.title ∧ s.TicketStatus = c.status) ∧
    (∀ c ∈ specTicketCategories, wal.TxMatchesFilter tx c.filter = true →
      (∀ k ∈ specTicketCategories, k ≠ c → wal.TxMatchesFilter tx k.filter = false) →
      ∃ s, TransactionTitleIcon loc l wal tx = .ok s ∧ s.TicketStatus = c.status) := by
  have first : ∀ c,
      specTicketCategories.find? (fun k => wal.TxMatchesFilter tx k.filter) = some c →
      ∃ s, TransactionTitleIcon loc l wal tx = .ok s ∧
        s.Title = values.String loc c.title ∧ s.TicketStatus = c.status := by
    intro c hc
    simp only [specTicketCategories, List.find?] at hc
    cases hu : wal.TxMatchesFilter tx TxFilterUnmined <;>
      cases hi : wal.TxMatchesFilter tx TxFilterImmature <;>
      cases hl : wal.TxMatchesFilter tx TxFilterLive <;>
      cases he : wal.TxMatchesFilter tx TxFilterExpired <;>
      simp [hu, hi, hl, he] at hc <;>
      subst hc <;>
      simp [TransactionTitleIcon, hstaking, htype, hu, hi, hl, he]
  refine ⟨first, ?_⟩
  intro c hc hmatch honly
  apply (first c _).imp
  · intro s hs
    exact ⟨hs.1, hs.2.2⟩
  · simp only [specTicketCategories, List.mem_cons, List.mem_singleton, List.not_mem_nil,
      or_false] at hc
    have hu := honly ⟨TxFilterUnmined, StrUmined, TicketStatusUnmined⟩ (by simp [specTicketCategories])
    have hi := honly ⟨TxFilterImmature, StrImmature, TicketStatusImmature⟩
      (by simp [specTicketCategories])
    have hl := honly ⟨TxFilterLive, StrLive, TicketStatusLive⟩ (by simp [specTicketCategories])
    rcases hc with rfl | rfl | rfl | rfl
    · simp [specTicketCategories, List.find?, hmatch]
    · have hu1 := hu (by decide)
      simp only at hu1 hmatch
      simp [specTicketCategories, List.find?, hmatch, hu1]
    · have hu1 := hu (by decide)
      have hi1 := hi (by decide)
      simp only at hu1 hi1 hmatch
      simp [specTicketCategories, List.find?, hmatch, hu1, hi1]
    · have hu1 := hu (by decide)
      have hi1 := hi (by decide)
      have hl1 := hl (by decide)
      simp only at hu1 hi1 hl1 hmatch
      simp [specTicketCategories, List.find?, hmatch, hu1, hi1, hl1]

/-- Witness of C2: a ticket purchase in a wallet whose immature and live filters
both match. -/
theorem transactionTitleIcon_ticket_first_match_witness :
    (dcrWallet [TxFilterStaking, TxFilterImmature, TxFilterLive] (none, none)).TxMatchesFilter
      ticketTx TxFilterStaking = true ∧
    ticketTx.Type_ = TxTypeTicketPurchase ∧
    (∀ c, specTicketCategories.find?
        (fun k => (dcrWallet [TxFilterStaking, TxFilterImmature, TxFilterLive]
          (none, none)).TxMatchesFilter ticketTx k.filter) = some c →
      ∃ s, TransactionTitleIcon keyLocale sampleLoad
          (dcrWallet [TxFilterStaking, TxFilterImmature, TxFilterLive] (none, none)) ticketTx
          = .ok s ∧
        s.Title = values.String keyLocale c.title ∧ s.TicketStatus = c.status) ∧
    (∀ c ∈ specTicketCategories,
      (dcrWallet [TxFilterStaking, TxFilterImmature, TxFilterLive] (none, none)).TxMatchesFilter
        ticketTx c.filter = true →
      (∀ k ∈ specTicketCategories, k ≠ c →
        (dcrWallet [TxFilterStaking, TxFilterImmature, TxFilterLive]
          (none, none)).TxMatchesFilter ticketTx k.filter = false) →
      ∃ s, TransactionTitleIcon keyLocale sampleLoad
          (dcrWallet [TxFilterStaking, TxFilterImmature, TxFilterLive] (none, none)) ticketTx
          = .ok s ∧ s.TicketStatus = c.status) :=
  ⟨rfl, rfl,
    transactionTitleIcon_ticket_first_match keyLocale sampleLoad
      (dcrWallet [TxFilterStaking, TxFilterImmature, TxFilterLive] (none, none)) ticketTx
      rfl rfl⟩

/-- C3: a ticket purchase that matches the staking filter and none of the four
ticket filters, and whose spender lookup returns a transaction, is "Voted" when
the spender is a vote and "Revoked" for every other spender type; the ticket
status is the voted-or-revoked class in both cases. -/
theorem transactionTitleIcon_spender (loc : Locale) (l : Load) (wal : Asset)
    (tx : Transaction) (dcrWal : DcrAsset) (ticketSpender : Transaction)
    (hstaking : wal.TxMatchesFilter tx TxFilterStaking = true)
    (htype : tx.Type_ = TxTypeTicketPurchase)
    (hunmined : wal.TxMatchesFilter tx TxFilterUnmined = false)
    (himmature : wal.TxMatchesFilter tx TxFilterImmature = false)
    (hlive : wal.TxMatchesFilter tx TxFilterLive = false)
    (hexpired : wal.TxMatchesFilter tx TxFilterExpired = false)
    (hdcr : wal.dcrAsset = some dcrWal)
    (hspender : (dcrWal.TicketSpender tx.Hash).1 = some ticketSpender) :
    ∃ s, TransactionTitleIcon loc l wal tx = .ok s ∧
      (ticketSpender.Type_ = TxTypeVote → s.Title = values.String loc StrVoted) ∧
      (ticketSpender.Type_ ≠ TxTypeVote → s.Title = values.String loc StrRevoked) ∧
      s.TicketStatus = TicketStatusVotedOrRevoked := by
  by_cases hv : ticketSpender.Type_ = TxTypeVote
  · simp [TransactionTitleIcon, hstaking, htype, hunmined, himmature, hlive, hexpired, hdcr,
      hspender, hv]
  · simp [TransactionTitleIcon, hstaking, htype, hunmined, himmature, hlive, hexpired, hdcr,
      hspender, hv]

/-- Witness of C3: a ticket spent by a revocation. -/
theorem transactionTitleIcon_spender_witness :
    (dcrWallet [TxFilterStaking] (some revocationTx, none)).TxMatchesFilter ticketTx
      TxFilterStaking = true ∧
    ticketTx.Type_ = TxTypeTicketPurchase ∧
    ∃ s, TransactionTitleIcon keyLocale sampleLoad
        (dcrWallet [TxFilterStaking] (some revocationTx, none)) ticketTx = .ok s ∧
      (revocationTx.Type_ = TxTypeVote → s.Title = values.String keyLocale StrVoted) ∧
      (revocationTx.Type_ ≠ TxTypeVote → s.Title = values.String keyLocale StrRevoked) ∧
      s.TicketStatus = TicketStatusVotedOrRevoked :=
  ⟨rfl, rfl,
    transactionTitleIcon_spender keyLocale sampleLoad
      (dcrWallet [TxFilterStaking] (some revocationTx, none)) ticketTx
      ⟨fun _ => (some revocationTx, none)⟩ revocationTx rfl rfl rfl rfl rfl rfl rfl rfl⟩

/-- C4: a ticket purchase that matches the staking filter and none of the four
ticket filters, and whose spender lookup finds no spender, keeps the base
status unchanged: title and icon from the direction alone, empty ticket
status, zero colours. -/
theorem transactionTitleIcon_no_spender (loc : Locale) (l : Load) (wal : Asset)
    (tx : Transaction) (dcrWal : DcrAsset)
    (hstaking : wal.TxMatchesFilter tx TxFilterStaking = true)
    (htype : tx.Type_ = TxTypeTicketPurchase)
    (hunmined : wal.TxMatchesFilter tx TxFilterUnmined = false)
    (himmature : wal.TxMatchesFilter tx TxFilterImmature = false)
    (hlive : wal.TxMatchesFilter tx TxFilterLive = false)
    (hexpired : wal.TxMatchesFilter tx TxFilterExpired = false)
    (hdcr : wal.dcrAsset = some dcrWal)
    (hspender : (dcrWal.TicketSpender tx.Hash).1 = none) :
    ∃ s, TransactionTitleIcon loc l wal tx = .ok s ∧
      (tx.Direction = TxDirectionSent →
        s.Title = values.String loc StrSent ∧ s.Icon = l.Theme.Icons.SendIcon) ∧
      (tx.Direction = TxDirectionReceived →
        s.Title = values.String loc StrReceived ∧ s.Icon = l.Theme.Icons.ReceiveIcon) ∧
      (tx.Direction ≠ TxDirectionSent → tx.Direction ≠ TxDirectionReceived →
        s.Title = values.String loc StrTransferred ∧ s.Icon = l.Theme.Icons.Transferred) ∧
      s.TicketStatus = "" ∧ s.Color = ⟨0, 0, 0, 0⟩ ∧ s.ProgressBarColor = ⟨0, 0, 0, 0⟩ ∧
      s.ProgressTrackColor = ⟨0, 0, 0, 0⟩ ∧ s.Background = ⟨0, 0, 0, 0⟩ := by
  have h : TransactionTitleIcon loc l wal tx = .ok (baseTxStatus loc l tx) := by
    simp [TransactionTitleIcon, hstaking, htype, hunmined, himmature, hlive, hexpired, hdcr,
      hspender]
  obtain ⟨d1, d2, d3⟩ := baseTxStatus_direction loc l tx
  exact ⟨_, h, d1, d2, d3, baseTxStatus_frame loc l tx⟩

/-- Witness of C4: a sent ticket purchase whose spender lookup returns nil, nil. -/
theorem transactionTitleIcon_no_spender_witness :
    (dcrWallet [TxFilterStaking] (none, none)).TxMatchesFilter ticketTx TxFilterStaking = true ∧
    ticketTx.Type_ = TxTypeTicketPurchase ∧
    ∃ s, TransactionTitleIcon keyLocale sampleLoad (dcrWallet [TxFilterStaking] (none, none))
        ticketTx = .ok s ∧
      (ticketTx.Direction = TxDirectionSent →
        s.Title = values.String keyLocale StrSent ∧ s.Icon = sampleLoad.Theme.Icons.SendIcon) ∧
      (ticketTx.Direction = TxDirectionReceived →
        s.Title = values.String keyLocale StrReceived ∧
        s.Icon = sampleLoad.Theme.Icons.ReceiveIcon) ∧
      (ticketTx.Direction ≠ TxDirectionSent → ticketTx.Direction ≠ TxDirectionReceived →
        s.Title = values.String keyLocale StrTransferred ∧
        s.Icon = sampleLoad.Theme.Icons.Transferred) ∧
      s.TicketStatus = "" ∧ s.Color = ⟨0, 0, 0, 0⟩ ∧ s.ProgressBarColor = ⟨0, 0, 0, 0⟩ ∧
      s.ProgressTrackColor = ⟨0, 0, 0, 0⟩ ∧ s.Background = ⟨0, 0, 0, 0⟩ :=
  ⟨rfl, rfl,
    transactionTitleIcon_no_spender keyLocale sampleLoad (dcrWallet [TxFilterStaking] (none, none))
      ticketTx ⟨fun _ => (none, none)⟩ rfl rfl rfl rfl rfl rfl rfl rfl⟩

/-- C5, as stated, fails: a lookup that returns an error together with a non-nil
transaction (here a vote) overrides the status ("voted"), unlike a lookup that
finds no spender. -/
theorem transactionTitleIcon_lookup_error_counterexample :
    (∃ d, (dcrWallet [TxFilterStaking] (some voteTx, some "lookup failed")).dcrAsset = some d ∧
      (d.TicketSpender ticketTx.Hash).2 = some "lookup failed") ∧
    TransactionTitleIcon keyLocale sampleLoad
      (dcrWallet [TxFilterStaking] (some voteTx, some "lookup failed")) ticketTx =
      .ok { Title := "voted", Icon := some 8, TicketStatus := "votedrevoked",
            Color := ⟨9, 0, 0, 255⟩, ProgressBarColor := ⟨10, 0, 0, 255⟩,
            ProgressTrackColor := ⟨11, 0, 0, 255⟩, Background := ⟨6, 0, 0, 255⟩ } ∧
    TransactionTitleIcon keyLocale sampleLoad (dcrWallet [TxFilterStaking] (none, none))
      ticketTx = .ok { Title := "sent", Icon := some 1 } ∧
    TransactionTitleIcon keyLocale sampleLoad
      (dcrWallet [TxFilterStaking] (some voteTx, some "lookup failed")) ticketTx ≠
    TransactionTitleIcon keyLocale sampleLoad (dcrWallet [TxFilterStaking] (none, none))
      ticketTx := by
  refine ⟨⟨_, rfl, rfl⟩, rfl, rfl, ?_⟩
  intro h
  have h2 := congrArg (fun r => r.toOption.map (fun s => s.TicketStatus)) h
  revert h2
  decide

/-- C5, amended: when the spender lookup of a ticket purchase returns an error
together with a nil transaction, the result is the base status, the same as
when the lookup finds no spender and reports no error. -/
theorem transactionTitleIcon_lookup_error (loc : Locale) (l : Load) (wal : Asset)
    (tx : Transaction) (dcrWal : DcrAsset) (err : String)
    (hstaking : wal.TxMatchesFilter tx TxFilterStaking = true)
    (htype : tx.Type_ = TxTypeTicketPurchase)
    (hunmined : wal.TxMatchesFilter tx TxFilterUnmined = false)
    (himmature : wal.TxMatchesFilter tx TxFilterImmature = false)
    (hlive : wal.TxMatchesFilter tx TxFilterLive = false)
    (hexpired : wal.TxMatchesFilter tx TxFilterExpired = false)
    (hdcr : wal.dcrAsset = some dcrWal)
    (herr : dcrWal.TicketSpender tx.Hash = (none, some err)) :
    TransactionTitleIcon loc l wal tx = .ok (baseTxStatus loc l tx) ∧
    TransactionTitleIcon loc l wal tx =
      TransactionTitleIcon loc l
        { wal with dcrAsset := some { TicketSpender := fun _ => (none, none) } } tx := by
  constructor <;>
    simp [TransactionTitleIcon, hstaking, htype, hunmined, himmature, hlive, hexpired, hdcr,
      herr]

/-- Witness of C5 (amended): the lookup returns nil and an error. -/
theorem transactionTitleIcon_lookup_error_witness :
    (dcrWallet [TxFilterStaking] (none, some "lookup failed")).TxMatchesFilter ticketTx
      TxFilterStaking = true ∧
    ticketTx.Type_ = TxTypeTicketPurchase ∧
    TransactionTitleIcon keyLocale sampleLoad
      (dcrWallet [TxFilterStaking] (none, some "lookup failed")) ticketTx =
      .ok (baseTxStatus keyLocale sampleLoad ticketTx) ∧
    TransactionTitleIcon keyLocale sampleLoad
      (dcrWallet [TxFilterStaking] (none, some "lookup failed")) ticketTx =
      TransactionTitleIcon keyLocale sampleLoad
        { dcrWallet [TxFilterStaking] (none, some "lookup failed") with
          dcrAsset := some { TicketSpender := fun _ => (none, none) } } ticketTx :=
  ⟨rfl, rfl,
    transactionTitleIcon_lookup_error keyLocale sampleLoad
      (dcrWallet [TxFilterStaking] (none, some "lookup failed")) ticketTx
      ⟨fun _ => (none, some "lookup failed")⟩ "lookup failed" rfl rfl rfl rfl rfl rfl rfl rfl⟩

/-- A wallet whose dynamic type is not `*dcr.Asset` panics at the unchecked type
assertion once a ticket purchase reaches the spender lookup. -/
theorem transactionTitleIcon_panics_of_not_dcr (loc : Locale) (l : Load) (wal : Asset)
    (tx : Transaction)
    (hstaking : wal.TxMatchesFilter tx TxFilterStaking = true)
    (htype : tx.Type_ = TxTypeTicketPurchase)
    (hunmined : wal.TxMatchesFilter tx TxFilterUnmined = false)
    (himmature : wal.TxMatchesFilter tx TxFilterImmature = false)
    (hlive : wal.TxMatchesFilter tx TxFilterLive = false)
    (hexpired : wal.TxMatchesFilter tx TxFilterExpired = false)
    (hdcr : wal.dcrAsset = none) :
    TransactionTitleIcon loc l wal tx = .error Panic.typeAssertion := by
  simp [TransactionTitleIcon, hstaking, htype, hunmined, himmature, hlive, hexpired, hdcr]

/-- A wallet of dynamic type `*dcr.Asset` always gets a status. -/
theorem transactionTitleIcon_total_of_dcr (loc : Locale) (l : Load) (wal : Asset)
    (tx : Transaction) (dcrWal : DcrAsset) (hdcr : wal.dcrAsset = some dcrWal) :
    ∃ s, TransactionTitleIcon loc l wal tx = .ok s := by
  unfold TransactionTitleIcon
  simp only [hdcr]
  split_ifs <;> first | exact ⟨_, rfl⟩ | (split <;> first | exact ⟨_, rfl⟩ | (split_ifs <;> exact ⟨_, rfl⟩))

/-- C6 fails on the code: for a wallet that is not a DCR wallet, a ticket
purchase that matches the staking filter and none of the four ticket filters
makes `TransactionTitleIcon` panic at `wal.(*dcr.Asset)` instead of returning
a status. -/
theorem transactionTitleIcon_type_assertion_panic :
    (otherWallet [TxFilterStaking]).dcrAsset.isNone = true ∧
    TransactionTitleIcon keyLocale sampleLoad (otherWallet [TxFilterStaking]) ticketTx =
      .error Panic.typeAssertion ∧
    ¬ ∃ s, TransactionTitleIcon keyLocale sampleLoad (otherWallet [TxFilterStaking]) ticketTx =
      .ok s := by
  refine ⟨rfl, rfl, ?_⟩
  rintro ⟨s, hs⟩
  have h : TransactionTitleIcon keyLocale sampleLoad (otherWallet [TxFilterStaking]) ticketTx =
      .error Panic.typeAssertion := rfl
  rw [h] at hs
  cases hs

/-- C7, as stated, fails: a Mixed-type transaction that matches the staking
filter is titled "revocation" with the revoked-ticket icon, not "mixed". -/
theorem transactionTitleIcon_mixed_counterexample :
    mixedTx.Type_ = TxTypeMixed ∧
    TransactionTitleIcon keyLocale sampleLoad (dcrWallet [TxFilterStaking] (none, none))
      mixedTx =
      .ok { Title := "revocation", Icon := some 9, TicketStatus := "votedrevoked",
            Color := ⟨12, 0, 0, 255⟩, ProgressBarColor := ⟨13, 0, 0, 255⟩,
            ProgressTrackColor := ⟨14, 0, 0, 255⟩, Background := ⟨15, 0, 0, 255⟩ } ∧
    ¬ ∃ s, TransactionTitleIcon keyLocale sampleLoad (dcrWallet [TxFilterStaking] (none, none))
        mixedTx = .ok s ∧
      s.Title = values.String keyLocale StrMixed ∧ s.Icon = sampleLoad.Theme.Icons.MixedTx := by
  refine ⟨rfl, rfl, ?_⟩
  rintro ⟨s, hs, htitle, -⟩
  have h2 : (TransactionTitleIcon keyLocale sampleLoad (dcrWallet [TxFilterStaking] (none, none))
      mixedTx).toOption.map (fun t => t.Title) = some (values.String keyLocale StrMixed) := by
    rw [hs, ← htitle]
    rfl
  revert h2
  decide

/-- C7, amended: a Mixed-type transaction that does not match the staking filter
is titled "Mixed" with the mixed-transaction icon, whatever its direction and
whatever the other filters answer; one that matches the staking filter takes
the staking override instead ("Revocation" with the revoked-ticket icon). -/
theorem transactionTitleIcon_mixed (loc : Locale) (l : Load) (wal : Asset) (tx : Transaction)
    (htype : tx.Type_ = TxTypeMixed) :
    (wal.TxMatchesFilter tx TxFilterStaking = false →
      ∃ s, TransactionTitleIcon loc l wal tx = .ok s ∧
        s.Title = values.String loc StrMixed ∧ s.Icon = l.Theme.Icons.MixedTx) ∧
    (wal.TxMatchesFilter tx TxFilterStaking = true →
      ∃ s, TransactionTitleIcon loc l wal tx = .ok s ∧
        s.Title = values.String loc StrRevocation ∧ s.Icon = l.Theme.Icons.TicketRevokedIcon) := by
  have h1 : ¬ (TxTypeMixed = TxTypeTicketPurchase) := by decide
  have h2 : ¬ (TxTypeMixed = TxTypeVote) := by decide
  constructor <;> intro hstaking <;> simp [TransactionTitleIcon, hstaking, htype, h1, h2]

/-- Witness of C7 (amended): a sent mixed transaction in a wallet that matches
no filter. -/
theorem transactionTitleIcon_mixed_witness :
    mixedTx.Type_ = TxTypeMixed ∧
    ((otherWallet []).TxMatchesFilter mixedTx TxFilterStaking = false →
      ∃ s, TransactionTitleIcon keyLocale sampleLoad (otherWallet []) mixedTx = .ok s ∧
        s.Title = values.String keyLocale StrMixed ∧ s.Icon = sampleLoad.Theme.Icons.MixedTx) ∧
    ((otherWallet []).TxMatchesFilter mixedTx TxFilterStaking = true →
      ∃ s, TransactionTitleIcon keyLocale sampleLoad (otherWallet []) mixedTx = .ok s ∧
        s.Title = values.String keyLocale StrRevocation ∧
        s.Icon = sampleLoad.Theme.Icons.TicketRevokedIcon) :=
  ⟨rfl, transactionTitleIcon_mixed keyLocale sampleLoad (otherWallet []) mixedTx rfl⟩

/-- C8: a Mixed-type transaction that does not match the staking filter gets the
title "Mixed" and the mixed-transaction icon for every direction; the ticket
status stays empty and the four colours stay zero. -/
theorem transactionTitleIcon_mixed_unstaked (loc : Locale) (l : Load) (wal : Asset)
    (tx : Transaction)
    (hstaking : wal.TxMatchesFilter tx TxFilterStaking = false)
    (htype : tx.Type_ = TxTypeMixed) :
    ∃ s, TransactionTitleIcon loc l wal tx = .ok s ∧
      s.Title = values.String loc StrMixed ∧ s.Icon = l.Theme.Icons.MixedTx ∧
      s.TicketStatus = "" ∧ s.Color = ⟨0, 0, 0, 0⟩ ∧ s.ProgressBarColor = ⟨0, 0, 0, 0⟩ ∧
      s.ProgressTrackColor = ⟨0, 0, 0, 0⟩ ∧ s.Background = ⟨0, 0, 0, 0⟩ := by
  refine ⟨{ baseTxStatus loc l tx with
            Title := values.String loc StrMixed, Icon := l.Theme.Icons.MixedTx }, ?_, rfl, rfl,
    baseTxStatus_frame loc l tx⟩
  simp [TransactionTitleIcon, hstaking, htype]

/-- Witness of C8: a sent mixed transaction in a DCR wallet whose staking filter
does not match it. -/
theorem transactionTitleIcon_mixed_unstaked_witness :
    (dcrWallet [TxFilterLive] (none, none)).TxMatchesFilter mixedTx TxFilterStaking = false ∧
    mixedTx.Type_ = TxTypeMixed ∧
    ∃ s, TransactionTitleIcon keyLocale sampleLoad (dcrWallet [TxFilterLive] (none, none))
        mixedTx = .ok s ∧
      s.Title = values.String keyLocale StrMixed ∧ s.Icon = sampleLoad.Theme.Icons.MixedTx ∧
      s.TicketStatus = "" ∧ s.Color = ⟨0, 0, 0, 0⟩ ∧ s.ProgressBarColor = ⟨0, 0, 0, 0⟩ ∧
      s.ProgressTrackColor = ⟨0, 0, 0, 0⟩ ∧ s.Background = ⟨0, 0, 0, 0⟩ :=
  ⟨rfl, rfl,
    transactionTitleIcon_mixed_unstaked keyLocale sampleLoad
      (dcrWallet [TxFilterLive] (none, none)) mixedTx rfl rfl⟩

/-- C9: a Vote-type transaction that matches the staking filter gets the title
"Vote", the voted-ticket icon and the voted-or-revoked ticket status, whatever
its direction and whatever the other filters answer. -/
theorem transactionTitleIcon_vote (loc : Locale) (l : Load) (wal : Asset) (tx : Transaction)
    (hstaking : wal.TxMatchesFilter tx TxFilterStaking = true)
    (htype : tx.Type_ = TxTypeVote) :
    ∃ s, TransactionTitleIcon loc l wal tx = .ok s ∧
      s.Title = values.String loc StrVote ∧ s.Icon = l.Theme.Icons.TicketVotedIcon ∧
      s.TicketStatus = TicketStatusVotedOrRevoked := by
  have h1 : ¬ (TxTypeVote = TxTypeTicketPurchase) := by decide
  simp [TransactionTitleIcon, hstaking, htype, h1]

/-- Witness of C9: a vote in a DCR wallet whose staking and live filters match. -/
theorem transactionTitleIcon_vote_witness :
    (dcrWallet [TxFilterStaking, TxFilterLive] (none, none)).TxMatchesFilter voteTx
      TxFilterStaking = true ∧
    voteTx.Type_ = TxTypeVote ∧
    ∃ s, TransactionTitleIcon keyLocale sampleLoad
        (dcrWallet [TxFilterStaking, TxFilterLive] (none, none)) voteTx = .ok s ∧
      s.Title = values.String keyLocale StrVote ∧
      s.Icon = sampleLoad.Theme.Icons.TicketVotedIcon ∧
      s.TicketStatus = TicketStatusVotedOrRevoked :=
  ⟨rfl, rfl,
    transactionTitleIcon_vote keyLocale sampleLoad
      (dcrWallet [TxFilterStaking, TxFilterLive] (none, none)) voteTx rfl rfl⟩

/-- C10: a transaction that matches the staking filter and whose type is neither
ticket purchase nor Vote gets the title "Revocation", the revoked-ticket icon
and the voted-or-revoked ticket status, whatever its direction. -/
theorem transactionTitleIcon_revocation (loc : Locale) (l : Load) (wal : Asset)
    (tx : Transaction)
    (hstaking : wal.TxMatchesFilter tx TxFilterStaking = true)
    (hticket : tx.Type_ ≠ TxTypeTicketPurchase)
    (hvote : tx.Type_ ≠ TxTypeVote) :
    ∃ s, TransactionTitleIcon loc l wal tx = .ok s ∧
      s.Title = values.String loc StrRevocation ∧ s.Icon = l.Theme.Icons.TicketRevokedIcon ∧
      s.TicketStatus = TicketStatusVotedOrRevoked := by
  simp [TransactionTitleIcon, hstaking, hticket, hvote]

/-- Witness of C10: a revocation in a DCR wallet whose staking filter matches. -/
theorem transactionTitleIcon_revocation_witness :
    (dcrWallet [TxFilterStaking] (none, none)).TxMatchesFilter revocationTx
      TxFilterStaking = true ∧
    revocationTx.Type_ ≠ TxTypeTicketPurchase ∧
    revocationTx.Type_ ≠ TxTypeVote ∧
    ∃ s, TransactionTitleIcon keyLocale sampleLoad (dcrWallet [TxFilterStaking] (none, none))
        revocationTx = .ok s ∧
      s.Title = values.String keyLocale StrRevocation ∧
      s.Icon = sampleLoad.Theme.Icons.TicketRevokedIcon ∧
      s.TicketStatus = TicketStatusVotedOrRevoked :=
  ⟨rfl, by decide, by decide,
    transactionTitleIcon_revocation keyLocale sampleLoad
      (dcrWallet [TxFilterStaking] (none, none)) revocationTx rfl (by decide) (by decide)⟩

/-! ## Theorems about `TxConfirmations` -/

/-- Two wrapping `int32` operations give the wrapped exact result. -/
theorem wrapInt32_add_one (x : Int) : wrapInt32 (wrapInt32 x + 1) = wrapInt32 (x + 1) := by
  unfold wrapInt32
  omega

/-- A value in the `int32` range is not changed by wrapping. -/
theorem wrapInt32_of_range (x : Int) (hlo : -2147483648 ≤ x) (hhi : x ≤ 2147483647) :
    wrapInt32 x = x := by
  unfold wrapInt32
  omega

/-- The value of `MaxInt32`. -/
theorem maxInt32_eq : MaxInt32 = 2147483647 := by
  decide

/-- C11, as stated, fails: for a transaction five blocks above the best block
the code returns -4, not `max(0, -4) = 0`. -/
theorem txConfirmations_clamp_counterexample :
    aheadTx.BlockHeight ≠ -1 ∧
    TxConfirmations (otherWallet []) aheadTx = -4 ∧
    max 0 (((otherWallet []).GetBestBlockHeight - aheadTx.BlockHeight) + 1) = 0 ∧
    TxConfirmations (otherWallet []) aheadTx ≠
      max 0 (((otherWallet []).GetBestBlockHeight - aheadTx.BlockHeight) + 1) ∧
    TxConfirmations (otherWallet []) aheadTx < 0 := by
  decide

/-- C11, amended: for a block height other than -1 `TxConfirmations` returns
`(bestHeight - txBlockHeight) + 1` in `int32` arithmetic, without clamping at 0:
this is `max(0, (bestHeight - txBlockHeight) + 1)`, hence not negative, when
`txBlockHeight <= bestHeight + 1` and the sum fits in `int32`, and it is the
negative number `(bestHeight - txBlockHeight) + 1` when
`txBlockHeight > bestHeight + 1` and the sum fits in `int32`; for block height
-1 it returns 0. -/
theorem txConfirmations_value (wallet : Asset) (transaction : Transaction)
    (hbest : -MaxInt32 - 1 ≤ wallet.GetBestBlockHeight ∧ wallet.GetBestBlockHeight ≤ MaxInt32)
    (hheight : -MaxInt32 - 1 ≤ transaction.BlockHeight ∧ transaction.BlockHeight ≤ MaxInt32) :
    (transaction.BlockHeight = -1 → TxConfirmations wallet transaction = 0) ∧
    (transaction.BlockHeight ≠ -1 →
      TxConfirmations wallet transaction =
        wrapInt32 ((wallet.GetBestBlockHeight - transaction.BlockHeight) + 1)) ∧
    (transaction.BlockHeight ≠ -1 →
      transaction.BlockHeight ≤ wallet.GetBestBlockHeight + 1 →
      (wallet.GetBestBlockHeight - transaction.BlockHeight) + 1 ≤ MaxInt32 →
      TxConfirmations wallet transaction =
        max 0 ((wallet.GetBestBlockHeight - transaction.BlockHeight) + 1) ∧
      0 ≤ TxConfirmations wallet transaction) ∧
    (transaction.BlockHeight ≠ -1 →
      wallet.GetBestBlockHeight + 1 < transaction.BlockHeight →
      -MaxInt32 - 1 ≤ (wallet.GetBestBlockHeight - transaction.BlockHeight) + 1 →
      TxConfirmations wallet transaction =
        (wallet.GetBestBlockHeight - transaction.BlockHeight) + 1 ∧
      TxConfirmations wallet transaction < 0) := by
  rw [maxInt32_eq] at hbest hheight ⊢
  obtain ⟨hb1, hb2⟩ := hbest
  obtain ⟨hh1, hh2⟩ := hheight
  refine ⟨?_, ?_, ?_, ?_⟩
  · intro h
    simp [TxConfirmations, h]
  · intro h
    simp [TxConfirmations, h, wrapInt32_add_one]
  · intro h hle hfit
    have hv : TxConfirmations wallet transaction =
        (wallet.GetBestBlockHeight - transaction.BlockHeight) + 1 := by
      simp only [TxConfirmations, h, ne_eq, not_false_eq_true, if_true, wrapInt32_add_one]
      exact wrapInt32_of_range _ (by omega) (by omega)
    rw [hv]
    constructor
    · rw [max_eq_right (by omega)]
    · omega
  · intro h hlt hfit
    have hv : TxConfirmations wallet transaction =
        (wallet.GetBestBlockHeight - transaction.BlockHeight) + 1 := by
      simp only [TxConfirmations, h, ne_eq, not_false_eq_true, if_true, wrapInt32_add_one]
      exact wrapInt32_of_range _ (by omega) (by omega)
    rw [hv]
    exact ⟨rfl, by omega⟩

/-- Witness of C11 (amended): best height 1000 and the transactions of heights
998 (mined) and 1005 (above the best block). -/
theorem txConfirmations_value_witness :
    (-MaxInt32 - 1 ≤ (otherWallet []).GetBestBlockHeight ∧
      (otherWallet []).GetBestBlockHeight ≤ MaxInt32) ∧
    (-MaxInt32 - 1 ≤ aheadTx.BlockHeight ∧ aheadTx.BlockHeight ≤ MaxInt32) ∧
    TxConfirmations (otherWallet []) aheadTx =
      ((otherWallet []).GetBestBlockHeight - aheadTx.BlockHeight) + 1 ∧
    TxConfirmations (otherWallet []) aheadTx < 0 :=
  ⟨by decide, by decide,
    (txConfirmations_value (otherWallet []) aheadTx (by decide) (by decide)).2.2.2
      (by decide) (by decide) (by decide)⟩

/-- C12, as stated, fails: with the best height `MaxInt32` and a transaction in
block 0 the sum `b - h + 1` overflows `int32` and the code returns
-2147483648. -/
theorem txConfirmations_overflow_counterexample :
    0 ≤ genesisTx.BlockHeight ∧
    genesisTx.BlockHeight ≤ tallWallet.GetBestBlockHeight ∧
    tallWallet.GetBestBlockHeight ≤ MaxInt32 ∧
    TxConfirmations tallWallet genesisTx = -2147483648 ∧
    TxConfirmations tallWallet genesisTx ≠
      tallWallet.GetBestBlockHeight - genesisTx.BlockHeight + 1 ∧
    ¬ 1 ≤ TxConfirmations tallWallet genesisTx := by
  decide

/-- C12, amended: for heights `0 <= h <= b` with `b - h < MaxInt32` (every case
but `h = 0` with `b = MaxInt32`) `TxConfirmations` returns `b - h + 1`, which is
at least 1 and at most `MaxInt32`, so nothing overflows; best height 1000 and
block height 998 give 3; for `h = -1` the result is 0 for every `b`. -/
theorem txConfirmations_mined (wallet : Asset) (transaction : Transaction) :
    (0 ≤ transaction.BlockHeight →
      transaction.BlockHeight ≤ wallet.GetBestBlockHeight →
      wallet.GetBestBlockHeight ≤ MaxInt32 →
      wallet.GetBestBlockHeight - transaction.BlockHeight < MaxInt32 →
      TxConfirmations wallet transaction =
        wallet.GetBestBlockHeight - transaction.BlockHeight + 1 ∧
      1 ≤ TxConfirmations wallet transaction ∧
      TxConfirmations wallet transaction ≤ MaxInt32) ∧
    (wallet.GetBestBlockHeight = 1000 → transaction.BlockHeight = 998 →
      TxConfirmations wallet transaction = 3) ∧
    (transaction.BlockHeight = -1 → TxConfirmations wallet transaction = 0) := by
  rw [maxInt32_eq]
  refine ⟨?_, ?_, ?_⟩
  · intro h0 hle hmax hfit
    have hne : transaction.BlockHeight ≠ -1 := by omega
    have hv : TxConfirmations wallet transaction =
        wallet.GetBestBlockHeight - transaction.BlockHeight + 1 := by
      simp only [TxConfirmations, hne, ne_eq, not_false_eq_true, if_true, wrapInt32_add_one]
      exact wrapInt32_of_range _ (by omega) (by omega)
    rw [hv]
    omega
  · intro hb hh
    simp only [TxConfirmations, hb, hh]
    decide
  · intro h
    simp [TxConfirmations, h]

/-- Witness of C12 (amended): best height 1000, block height 998. -/
theorem txConfirmations_mined_witness :
    0 ≤ regularTx.BlockHeight ∧
    regularTx.BlockHeight ≤ (otherWallet []).GetBestBlockHeight ∧
    (otherWallet []).GetBestBlockHeight ≤ MaxInt32 ∧
    (otherWallet []).GetBestBlockHeight - regularTx.BlockHeight < MaxInt32 ∧
    TxConfirmations (otherWallet []) regularTx =
      (otherWallet []).GetBestBlockHeight - regularTx.BlockHeight + 1 ∧
    1 ≤ TxConfirmations (otherWallet []) regularTx ∧
    TxConfirmations (otherWallet []) regularTx ≤ MaxInt32 :=
  ⟨by decide, by decide, by decide, by decide,
    (txConfirmations_mined (otherWallet []) regularTx).1 (by decide) (by decide) (by decide)
      (by decide)⟩

/-! ## Theorems about the transaction row -/

/-- C13: the status label is "Unconfirmed" if `c < 1`, "Pending (c/r)" if
`1 <= c < r` and the date and time text otherwise, and exactly one of the three
cases applies; with `r = 6`, `c = 5` is pending and shows 5 and 6, `c = 6` is
confirmed and `c = 0` is unconfirmed. -/
theorem transactionRowStatus_three_cases (loc : Locale) (tz : TimeZone) (l : Load)
    (tx : Transaction) (c r : Int) :
    (c < 1 →
      transactionRowStatus loc tz l tx c r =
        ⟨values.String loc StrUnconfirmedTx, l.Theme.Color.GrayText1⟩) ∧
    (1 ≤ c → c < r →
      transactionRowStatus loc tz l tx c r =
        ⟨StringF loc StrTxStatusPending [c, r], l.Theme.Color.GrayText1⟩) ∧
    (1 ≤ c → r ≤ c →
      transactionRowStatus loc tz l tx c r =
        ⟨tz.Format tx.Timestamp "Jan 2, 2006" ++ " at " ++ tz.Format tx.Timestamp "03:04:05 PM",
          l.Theme.Color.GrayText2⟩) ∧
    ((c < 1 ∧ ¬ (1 ≤ c ∧ c < r) ∧ ¬ (1 ≤ c ∧ r ≤ c)) ∨
      (¬ c < 1 ∧ (1 ≤ c ∧ c < r) ∧ ¬ (1 ≤ c ∧ r ≤ c)) ∨
      (¬ c < 1 ∧ ¬ (1 ≤ c ∧ c < r) ∧ (1 ≤ c ∧ r ≤ c))) ∧
    transactionRowStatus loc tz l tx 5 6 =
      ⟨StringF loc StrTxStatusPending [5, 6], l.Theme.Color.GrayText1⟩ ∧
    StringF enLocale StrTxStatusPending [5, 6] = "Pending (5/6)" ∧
    transactionRowStatus loc tz l tx 6 6 =
      ⟨tz.Format tx.Timestamp "Jan 2, 2006" ++ " at " ++ tz.Format tx.Timestamp "03:04:05 PM",
        l.Theme.Color.GrayText2⟩ ∧
    transactionRowStatus loc tz l tx 0 6 =
      ⟨values.String loc StrUnconfirmedTx, l.Theme.Color.GrayText1⟩ := by
  have hun : ∀ a b : Int, a < 1 → transactionRowStatus loc tz l tx a b =
      ⟨values.String loc StrUnconfirmedTx, l.Theme.Color.GrayText1⟩ := by
    intro a b h
    simp [transactionRowStatus, h]
  have hpe : ∀ a b : Int, 1 ≤ a → a < b → transactionRowStatus loc tz l tx a b =
      ⟨StringF loc StrTxStatusPending [a, b], l.Theme.Color.GrayText1⟩ := by
    intro a b h1 h2
    have h3 : ¬ a < 1 := by omega
    have h4 : ¬ a ≥ b := by omega
    simp [transactionRowStatus, h3, h4]
  have hco : ∀ a b : Int, 1 ≤ a → b ≤ a → transactionRowStatus loc tz l tx a b =
      ⟨tz.Format tx.Timestamp "Jan 2, 2006" ++ " at " ++ tz.Format tx.Timestamp "03:04:05 PM",
        l.Theme.Color.GrayText2⟩ := by
    intro a b h1 h2
    have h3 : ¬ a < 1 := by omega
    have h4 : a ≥ b := by omega
    simp [transactionRowStatus, h3, h4]
  refine ⟨hun c r, hpe c r, hco c r, by omega, hpe 5 6 (by decide) (by decide), by decide,
    hco 6 6 (by decide) (by decide), hun 0 6 (by decide)⟩

/-- Witness of C13: five of six confirmations, in English. -/
theorem transactionRowStatus_three_cases_witness :
    (1 : Int) ≤ 5 ∧ (5 : Int) < 6 ∧
    transactionRowStatus enLocale sampleTimeZone sampleLoad sentTx 5 6 =
      ⟨StringF enLocale StrTxStatusPending [5, 6], sampleLoad.Theme.Color.GrayText1⟩ :=
  ⟨by decide, by decide,
    (transactionRowStatus_three_cases enLocale sampleTimeZone sampleLoad sentTx 5 6).2.1
      (by decide) (by decide)⟩

/-- The test `strings.Contains(s, "-")` holds exactly when some character of `s`
is `-`. -/
theorem contains_minus_iff (s : String) :
    strings.Contains s "-" = true ↔ '-' ∈ s.toList := by
  have hl : "-".toList = ['-'] := rfl
  simp only [strings.Contains, decide_eq_true_eq, hl]
  constructor
  · intro h
    exact h.mem (List.mem_singleton.mpr rfl)
  · intro h
    obtain ⟨a, b, hab⟩ := List.append_of_mem h
    exact ⟨a, b, by simpa using hab.symm⟩

/-- C14: for a regular transaction with formatted amount `s` the row shows
`"-" ++ s` when the direction is Sent and no character of `s` is `-`, and `s`
unchanged otherwise; the test reads the string, not the number. -/
theorem layoutTransactionRow_amount (toAmount : Int → String) (tx : Transaction)
    (hregular : tx.Type_ = TxTypeRegular) :
    (tx.Direction = TxDirectionSent → '-' ∉ (toAmount tx.Amount).toList →
      LayoutTransactionRow.amount toAmount tx = some ("-" ++ toAmount tx.Amount)) ∧
    (tx.Direction ≠ TxDirectionSent →
      LayoutTransactionRow.amount toAmount tx = some (toAmount tx.Amount)) ∧
    ('-' ∈ (toAmount tx.Amount).toList →
      LayoutTransactionRow.amount toAmount tx = some (toAmount tx.Amount)) := by
  refine ⟨?_, ?_, ?_⟩
  · intro hsent hno
    have hc : strings.Contains (toAmount tx.Amount) "-" = false := by
      rw [← Bool.not_eq_true, contains_minus_iff]
      exact hno
    simp [LayoutTransactionRow.amount, signAmount, hregular, hsent, hc]
  · intro hdir
    simp [LayoutTransactionRow.amount, signAmount, hregular, hdir]
  · intro hmem
    have hc : strings.Contains (toAmount tx.Amount) "-" = true :=
      (contains_minus_iff _).mpr hmem
    simp [LayoutTransactionRow.amount, signAmount, hregular, hc]

/-- Witness of C14: a sent regular transaction of 5 atoms. -/
theorem layoutTransactionRow_amount_witness :
    sentTx.Type_ = TxTypeRegular ∧ sentTx.Direction = TxDirectionSent ∧
    '-' ∉ (sampleToAmount sentTx.Amount).toList ∧
    LayoutTransactionRow.amount sampleToAmount sentTx =
      some ("-" ++ sampleToAmount sentTx.Amount) :=
  ⟨rfl, rfl, by decide,
    (layoutTransactionRow_amount sampleToAmount sentTx rfl).1 rfl (by decide)⟩

/-- C15: the sign rule is idempotent, and an amount that already starts with
`-` is returned unchanged, so no second `-` is put in front. -/
theorem signAmount_idempotent (tx : Transaction) (s : String) :
    signAmount tx (signAmount tx s) = signAmount tx s ∧
    (∀ t : String, signAmount tx ("-" ++ t) = "-" ++ t) := by
  have hpre : ∀ t : String, signAmount tx ("-" ++ t) = "-" ++ t := by
    intro t
    have hc : strings.Contains ("-" ++ t) "-" = true := by
      rw [contains_minus_iff]
      simp [String.toList]
    simp [signAmount, hc]
  refine ⟨?_, hpre⟩
  by_cases h : (tx.Direction = TxDirectionSent && !strings.Contains s "-") = true
  · have hs : signAmount tx s = "-" ++ s := by
      simp only [signAmount, h, if_true]
    rw [hs]
    exact hpre s
  · have hs : signAmount tx s = s := by
      simp only [signAmount, h]
      simp
    rw [hs, hs]

/-! ## Theorems about `TxPageDropDownFields` -/

/-- Storing a fresh key appends the entry. -/
theorem GoMap.set_fresh (m : GoMap) (k : String) (v : Int)
    (h : k ∉ m.map Prod.fst) : GoMap.set m k v = m ++ [(k, v)] := by
  have hany : m.any (fun e => e.1 == k) = false := by
    rw [Bool.eq_false_iff]
    intro hc
    rw [List.any_eq_true] at hc
    obtain ⟨e, he, hk⟩ := hc
    have hek : e.1 = k := by simpa using hk
    exact h (List.mem_map.mpr ⟨e, he, hek⟩)
  simp [GoMap.set, hany]

/-- Storing entries with fresh, pairwise distinct keys appends them in order. -/
theorem GoMap.foldl_set_fresh (entries : List (String × Int)) :
    ∀ acc : GoMap, ((acc ++ entries).map Prod.fst).Nodup →
      entries.foldl (fun m e => GoMap.set m e.1 e.2) acc = acc ++ entries := by
  induction entries with
  | nil =>
    intro acc _
    simp
  | cons e es ih =>
    intro acc h
    have hfresh : e.1 ∉ acc.map Prod.fst := by
      intro hmem
      rw [List.map_append, List.nodup_append] at h
      exact h.2.2 hmem (by simp)
    rw [List.foldl_cons, GoMap.set_fresh acc e.1 e.2 hfresh, ih (acc ++ [(e.1, e.2)])]
    · simp
    · simpa using h

/-- A map literal with pairwise distinct keys holds exactly the entries written. -/
theorem GoMap.literal_of_nodup (entries : List (String × Int))
    (h : (entries.map Prod.fst).Nodup) : GoMap.literal entries = entries := by
  have := GoMap.foldl_set_fresh entries [] (by simpa using h)
  simpa [GoMap.literal] using this

/-- A lookup succeeds exactly for the keys of the entries. -/
theorem GoMap.get?_isSome_iff (m : GoMap) (k : String) :
    (GoMap.get? m k).isSome = true ↔ k ∈ m.map Prod.fst := by
  induction m with
  | nil => simp [GoMap.get?]
  | cons e es ih =>
    by_cases hk : e.1 = k
    · simp [GoMap.get?, List.find?, hk]
    · have hk2 : ¬ k = e.1 := fun h => hk h.symm
      have hb : (e.1 == k) = false := by simpa using hk
      simp only [GoMap.get?, List.find?, hb, List.map_cons, List.mem_cons, hk2, false_or]
      exact ih

/-- With pairwise distinct labels the keys of `mapInfo` are the key list. -/
theorem txPageDropDownFields_map_keys (loc : Locale) (wType : String) (tabIndex : Int)
    (hdistinct : (TxPageDropDownFields loc wType tabIndex).2.Nodup) :
    (TxPageDropDownFields loc wType tabIndex).1.map Prod.fst =
      (TxPageDropDownFields loc wType tabIndex).2 := by
  unfold TxPageDropDownFields at hdistinct ⊢
  split_ifs at hdistinct ⊢
  · rw [GoMap.literal_of_nodup _ (by simpa using hdistinct)]
    rfl
  · rw [GoMap.literal_of_nodup _ (by simpa using hdistinct)]
    rfl
  · rw [GoMap.literal_of_nodup _ (by simpa using hdistinct)]
    rfl
  · rw [GoMap.literal_of_nodup _ (by simpa using hdistinct)]
    rfl
  · rfl

/-- C16, as stated, fails: for a BTC wallet and tab 1 no case matches, the key
list is empty and so does not start with "All". -/
theorem txPageDropDownFields_counterexample :
    (TxPageDropDownFields keyLocale BTCWalletAsset 1).2.Nodup ∧
    TxPageDropDownFields keyLocale BTCWalletAsset 1 = ([], []) ∧
    (TxPageDropDownFields keyLocale BTCWalletAsset 1).2.head? ≠
      some (values.String keyLocale StrAll) := by
  decide

/-- C16, amended: provided the labels in the key list are pairwise distinct, the
key list lists exactly the keys of the map, each once, and both have the same
number of entries; for BTC, LTC and DCR with tab 0 and for DCR with tab 1 the
list starts with "All"; for every other asset type and tab index the map and
the key list are both empty. -/
theorem txPageDropDownFields_keys (loc : Locale) (wType : String) (tabIndex : Int)
    (hdistinct : (TxPageDropDownFields loc wType tabIndex).2.Nodup) :
    (∀ k, k ∈ (TxPageDropDownFields loc wType tabIndex).2 ↔
      (GoMap.get? (TxPageDropDownFields loc wType tabIndex).1 k).isSome = true) ∧
    ((TxPageDropDownFields loc wType tabIndex).1.map Prod.fst).Nodup ∧
    (TxPageDropDownFields loc wType tabIndex).2.length =
      (TxPageDropDownFields loc wType tabIndex).1.length ∧
    (((wType = BTCWalletAsset ∨ wType = LTCWalletAsset ∨ wType = DCRWalletAsset) ∧
        tabIndex = 0) ∨ (wType = DCRWalletAsset ∧ tabIndex = 1) →
      ∃ rest, (TxPageDropDownFields loc wType tabIndex).2 =
        values.String loc StrAll :: rest) ∧
    (¬ ((((wType = BTCWalletAsset ∨ wType = LTCWalletAsset ∨ wType = DCRWalletAsset) ∧
        tabIndex = 0) ∨ (wType = DCRWalletAsset ∧ tabIndex = 1))) →
      TxPageDropDownFields loc wType tabIndex = ([], [])) := by
  have hkeys := txPageDropDownFields_map_keys loc wType tabIndex hdistinct
  refine ⟨?_, ?_, ?_, ?_, ?_⟩
  · intro k
    rw [GoMap.get?_isSome_iff, hkeys]
  · rw [hkeys]
    exact hdistinct
  · rw [← hkeys, List.length_map]
  · intro hcase
    unfold TxPageDropDownFields
    split_ifs with h1 h2 h3 h4
    · exact ⟨_, rfl⟩
    · exact ⟨_, rfl⟩
    · exact ⟨_, rfl⟩
    · exact ⟨_, rfl⟩
    · exfalso
      rcases hcase with ⟨hw | hw | hw, ht⟩ | ⟨hw, ht⟩
      · exact h1 ⟨hw, ht⟩
      · exact h2 ⟨hw, ht⟩
      · exact h3 ⟨hw, ht⟩
      · exact h4 ⟨hw, ht⟩
  · intro hcase
    unfold TxPageDropDownFields
    split_ifs with h1 h2 h3 h4
    · exact absurd (Or.inl ⟨Or.inl h1.1, h1.2⟩) hcase
    · exact absurd (Or.inl ⟨Or.inr (Or.inl h2.1), h2.2⟩) hcase
    · exact absurd (Or.inl ⟨Or.inr (Or.inr h3.1), h3.2⟩) hcase
    · exact absurd (Or.inr h4) hcase
    · rfl

/-- Witness of C16 (amended): the DCR transactions tab with the keys as labels. -/
theorem txPageDropDownFields_keys_witness :
    (TxPageDropDownFields keyLocale DCRWalletAsset 0).2.Nodup ∧
    (∀ k, k ∈ (TxPageDropDownFields keyLocale DCRWalletAsset 0).2 ↔
      (GoMap.get? (TxPageDropDownFields keyLocale DCRWalletAsset 0).1 k).isSome = true) ∧
    (TxPageDropDownFields keyLocale DCRWalletAsset 0).2.length =
      (TxPageDropDownFields keyLocale DCRWalletAsset 0).1.length :=
  ⟨by decide,
    (txPageDropDownFields_keys keyLocale DCRWalletAsset 0 (by decide)).1,
    (txPageDropDownFields_keys keyLocale DCRWalletAsset 0 (by decide)).2.2.1⟩

/-! ## Theorems about `GetTicketPurchaseAccount` -/

/-- C17: the account of `GetAccount(PurchaseAccount)` is returned exactly when
the purchase account is set (not -1), `GetAccount` succeeds, and either
spending unmixed funds is allowed or the account mixer is configured and the
purchase account is the mixed account; in every other case the returned
account is nil. -/
theorem getTicketPurchaseAccount_valid (selectedWallet : DcrAccounts) :
    (selectedWallet.AutoTicketsBuyerConfig.PurchaseAccount ≠ -1 →
      (selectedWallet.GetAccount selectedWallet.AutoTicketsBuyerConfig.PurchaseAccount).2 = none →
      (selectedWallet.ReadBoolConfigValueForKey SpendUnmixedFundsKey false = true ∨
        (selectedWallet.ReadBoolConfigValueForKey AccountMixerConfigSet false = true ∧
          selectedWallet.AutoTicketsBuyerConfig.PurchaseAccount =
            selectedWallet.MixedAccountNumber)) →
      (GetTicketPurchaseAccount selectedWallet).1 =
        (selectedWallet.GetAccount selectedWallet.AutoTicketsBuyerConfig.PurchaseAccount).1) ∧
    (¬ (selectedWallet.AutoTicketsBuyerConfig.PurchaseAccount ≠ -1 ∧
        (selectedWallet.GetAccount
          selectedWallet.AutoTicketsBuyerConfig.PurchaseAccount).2 = none ∧
        (selectedWallet.ReadBoolConfigValueForKey SpendUnmixedFundsKey false = true ∨
          (selectedWallet.ReadBoolConfigValueForKey AccountMixerConfigSet false = true ∧
            selectedWallet.AutoTicketsBuyerConfig.PurchaseAccount =
              selectedWallet.MixedAccountNumber))) →
      (GetTicketPurchaseAccount selectedWallet).1 = none) := by
  obtain ⟨⟨p⟩, mixed, rb, ga⟩ := selectedWallet
  simp only
  constructor
  · intro hset herr hok
    rcases hok with hs | ⟨hm, heq⟩
    · simp [GetTicketPurchaseAccount, hset, herr, hs]
    · subst heq
      cases hs : rb SpendUnmixedFundsKey false <;>
        simp [GetTicketPurchaseAccount, hset, herr, hs, hm]
  · intro hnot
    by_cases hset : p = -1
    · simp [GetTicketPurchaseAccount, hset]
    · cases herr : (ga p).2 with
      | some e => simp [GetTicketPurchaseAccount, hset, herr]
      | none =>
        have hs : rb SpendUnmixedFundsKey false = false := by
          cases h : rb SpendUnmixedFundsKey false
          · rfl
          · exact absurd ⟨hset, herr, Or.inl h⟩ hnot
        have hm : ¬ (rb AccountMixerConfigSet false = true ∧ p = mixed) :=
          fun h => hnot ⟨hset, herr, Or.inr h⟩
        by_cases hmix : rb AccountMixerConfigSet false = true
        · have hne : ¬ p = mixed := fun h => hm ⟨hmix, h⟩
          simp [GetTicketPurchaseAccount, hset, herr, hs, hmix, hne]
        · simp [GetTicketPurchaseAccount, hset, herr, hs, hmix]

/-- Witness of C17: the purchase account is the mixed account of a wallet with
the account mixer configured. -/
theorem getTicketPurchaseAccount_valid_witness :
    mixerAccounts.AutoTicketsBuyerConfig.PurchaseAccount ≠ -1 ∧
    (mixerAccounts.GetAccount mixerAccounts.AutoTicketsBuyerConfig.PurchaseAccount).2 = none ∧
    (GetTicketPurchaseAccount mixerAccounts).1 =
      (mixerAccounts.GetAccount mixerAccounts.AutoTicketsBuyerConfig.PurchaseAccount).1 :=
  ⟨by decide, rfl,
    (getTicketPurchaseAccount_valid mixerAccounts).1 (by decide) rfl (Or.inr ⟨rfl, rfl⟩)⟩

/-! ## Theorems about `InputsNotEmpty` -/

/-- C19: `InputsNotEmpty` is true exactly when every editor of the list has a
non-empty text; for the empty list it is true. -/
theorem inputsNotEmpty_iff (editors : List Editor) :
    (InputsNotEmpty editors = true ↔ ∀ e ∈ editors, e.Text ≠ "") ∧
    InputsNotEmpty [] = true := by
  refine ⟨?_, rfl⟩
  induction editors with
  | nil => simp [InputsNotEmpty]
  | cons e es ih =>
    by_cases h : e.Text = ""
    · simp [InputsNotEmpty, h]
    · simp [InputsNotEmpty, h, ih]

/-! ## Theorems about the staking overview page -/

/-- The switch is left disabled only for a watching-only wallet that is not
synced. -/
theorem setStakingButtonsState_disabled_iff (pg : StakingPage) :
    pg.setStakingButtonsState.stake.enabled = false ↔
      (pg.wallet.IsSynced = false ∧ pg.wallet.IsWatchingOnlyWallet = true) := by
  cases hs : pg.wallet.IsSynced <;> cases hw : pg.wallet.IsWatchingOnlyWallet <;>
    simp [StakingPage.setStakingButtonsState, Switch.SetEnabled, hs, hw]

/-- C20 fails on the code: for a wallet that is not synced and not watching-only
`setStakingButtonsState` enables the automatic ticket purchase switch. -/
theorem setStakingButtonsState_unsynced_enabled :
    unsyncedPage.wallet.IsSynced = false ∧
    unsyncedPage.setStakingButtonsState.stake.enabled = true := by
  decide

/-! ## Theorems about `SecondsToDays` -/

/-- A decimal digit is not the letter `d`. -/
theorem digitChar_ne_d (n : Nat) (h : n < 10) : Nat.digitChar n ≠ 'd' := by
  interval_cases n <;> decide

/-- The decimal digits of a number do not contain the letter `d`. -/
theorem toDigitsCore_no_d (fuel : Nat) :
    ∀ (n : Nat) (ds : List Char), 'd' ∉ ds → 'd' ∉ Nat.toDigitsCore 10 fuel n ds := by
  induction fuel with
  | zero =>
    intro n ds h
    simpa [Nat.toDigitsCore] using h
  | succ fuel ih =>
    intro n ds h
    have hd : 'd' ∉ Nat.digitChar (n % 10) :: ds := by
      intro hmem
      rcases List.mem_cons.mp hmem with h1 | h1
      · exact digitChar_ne_d (n % 10) (Nat.mod_lt _ (by decide)) h1.symm
      · exact h h1
    unfold Nat.toDigitsCore
    simp only
    split_ifs
    · exact hd
    · exact ih _ _ hd

/-- The decimal rendering of a natural number does not contain the letter `d`. -/
theorem natToString_no_d (n : Nat) : 'd' ∉ (toString n).toList := by
  show 'd' ∉ (Nat.toDigits 10 n).asString.toList
  simpa [Nat.toDigits, List.asString] using toDigitsCore_no_d (n + 1) n [] (by simp)

/-- The rendering of a duration does not contain the letter `d`. -/
theorem durationString_no_d (secs : Int) : 'd' ∉ (durationString secs).toList := by
  have hn : ∀ n : Nat, 'd' ∉ (toString n).data := natToString_no_d
  have hh : 'd' ∉ "h".data := by decide
  have hm : 'd' ∉ "m".data := by decide
  have hs : 'd' ∉ "s".data := by decide
  have hneg : 'd' ∉ "-".data := by decide
  have hz : 'd' ∉ "0s".data := by decide
  have he : 'd' ∉ "".data := by decide
  unfold durationString
  simp only [String.toList]
  split_ifs <;>
    simp only [String.data_append, List.mem_append, not_or] <;>
    simp [hn, hh, hm, hs, hneg, hz, he]

/-- The result of `SecondsToDays` in terms of the quotient and the remainder. -/
theorem secondsToDays_eq (t : Int) :
    SecondsToDays t =
      if (divMod t 86400).1 > 0 then
        toString (divMod t 86400).1 ++ "d" ++ durationString (divMod t 86400).2
      else
        durationString (divMod t 86400).2 := by
  have h : (24 * 60 * 60 : Int) = 86400 := by norm_num
  simp only [SecondsToDays, h]

/-- C18: for `t >= 0` seconds `divMod(t, 86400)` gives `q` and `r` with
`t = q * 86400 + r` and `0 <= r < 86400`; the result is `q`, the letter `d` and
the rendering of `r` seconds when `t >= 86400` and only the rendering of `r`
seconds otherwise, and it starts with `q` followed by `d` exactly when
`t >= 86400`. -/
theorem secondsToDays_split (t : Int) (ht : 0 ≤ t) :
    t = (divMod t 86400).1 * 86400 + (divMod t 86400).2 ∧
    0 ≤ (divMod t 86400).2 ∧ (divMod t 86400).2 < 86400 ∧
    (86400 ≤ t →
      SecondsToDays t =
        toString (divMod t 86400).1 ++ "d" ++ durationString (divMod t 86400).2) ∧
    (t < 86400 → SecondsToDays t = durationString (divMod t 86400).2) ∧
    ((∃ rest : String, SecondsToDays t = toString (divMod t 86400).1 ++ "d" ++ rest) ↔
      86400 ≤ t) := by
  have hsum : 86400 * (divMod t 86400).1 + (divMod t 86400).2 = t := Int.tdiv_add_tmod t 86400
  have hlo : 0 ≤ (divMod t 86400).2 := Int.tmod_nonneg 86400 ht
  have hhi : (divMod t 86400).2 < 86400 := Int.tmod_lt_of_pos t (by decide)
  have hday : 86400 ≤ t →
      SecondsToDays t =
        toString (divMod t 86400).1 ++ "d" ++ durationString (divMod t 86400).2 := by
    intro h
    have hq : (divMod t 86400).1 > 0 := by omega
    rw [secondsToDays_eq, if_pos hq]
  have hrest : t < 86400 → SecondsToDays t = durationString (divMod t 86400).2 := by
    intro h
    have hq : ¬ (divMod t 86400).1 > 0 := by omega
    rw [secondsToDays_eq, if_neg hq]
  refine ⟨by omega, hlo, hhi, hday, hrest, ?_, fun h => ⟨_, hday h⟩⟩
  rintro ⟨rest, hr⟩
  by_contra hlt
  have hno := durationString_no_d (divMod t 86400).2
  rw [← hrest (by omega), hr] at hno
  apply hno
  simp [String.toList, String.data_append]

/-- Witness of C18: one day, one hour, one minute and one second. -/
theorem secondsToDays_split_witness :
    (0 : Int) ≤ 90061 ∧
    (90061 : Int) = (divMod 90061 86400).1 * 86400 + (divMod 90061 86400).2 ∧
    (divMod 90061 86400).2 < 86400 ∧
    SecondsToDays 90061 = "1d1h1m1s" :=
  ⟨by decide, (secondsToDays_split 90061 (by decide)).1,
    (secondsToDays_split 90061 (by decide)).2.2.1,
    ((secondsToDays_split 90061 (by decide)).2.2.2.1 (by decide)).trans (by decide)⟩

/-! ## Theorems about `fetchTicketPrice` -/

/-- Whenever `fetchTicketPrice` returns, the ticket price was requested from the
backend first, whatever the sync state. -/
theorem fetchTicketPrice_requests (loc : Locale) (amountString : Int → String)
    (backend : Option TicketPriceResponse × Option String) (pg pg2 : StakingPage)
    (effects : List Effect)
    (h : StakingPage.fetchTicketPrice loc amountString backend pg = .ok (pg2, effects)) :
    effects.head? = some Effect.ticketPriceRequested := by
  obtain ⟨ticketPrice, err⟩ := backend
  cases err <;> cases ticketPrice <;> cases hs : pg.wallet.IsSynced <;>
    simp [StakingPage.fetchTicketPrice, hs] at h <;>
    simp [← h.2]

/-- A backend answer without an error is stored as the ticket price, whether or
not the wallet is synced. -/
theorem fetchTicketPrice_stores_answer (loc : Locale) (amountString : Int → String)
    (response : TicketPriceResponse) (pg : StakingPage) :
    StakingPage.fetchTicketPrice loc amountString (some response, none) pg =
      .ok ({ pg with ticketPrice := amountString response.TicketPrice },
        [Effect.ticketPriceRequested]) := by
  simp [StakingPage.fetchTicketPrice]

/-- C21 fails on the code: for a wallet that is not synced `fetchTicketPrice`
still requests the ticket price from the backend, and when the backend answers
without an error the stored `ticketPrice` is the backend price. -/
theorem fetchTicketPrice_unsynced_fetches :
    unsyncedPage.wallet.IsSynced = false ∧
    StakingPage.fetchTicketPrice keyLocale sampleToAmount (some samplePrice, none) unsyncedPage =
      .ok ({ unsyncedPage with ticketPrice := sampleToAmount samplePrice.TicketPrice },
        [Effect.ticketPriceRequested]) ∧
    sampleToAmount samplePrice.TicketPrice = "12345 DCR" := by
  refine ⟨rfl, rfl, ?_⟩
  decide

/-! ## Theorems about the status icon of a transaction row -/

/-- The choice of lines 496-499 alone: for `r >= 1` and `c >= r` the confirm
icon goes with the date and time text, for `c < r` the pending icon goes with
"Unconfirmed" or "Pending"; when the two icons differ, the confirm icon is
chosen exactly when `c >= r` and the pending icon exactly when `c < r`. -/
theorem transactionRowStatusIcon_choice (loc : Locale) (tz : TimeZone) (l : Load)
    (tx : Transaction) (c r : Int) (hr : 1 ≤ r) :
    (r ≤ c →
      transactionRowStatusIcon l c r = l.Theme.Icons.ConfirmIcon ∧
      transactionRowStatus loc tz l tx c r =
        ⟨tz.Format tx.Timestamp "Jan 2, 2006" ++ " at " ++ tz.Format tx.Timestamp "03:04:05 PM",
          l.Theme.Color.GrayText2⟩) ∧
    (c < r →
      transactionRowStatusIcon l c r = l.Theme.Icons.PendingIcon ∧
      (transactionRowStatus loc tz l tx c r =
          ⟨values.String loc StrUnconfirmedTx, l.Theme.Color.GrayText1⟩ ∨
        transactionRowStatus loc tz l tx c r =
          ⟨StringF loc StrTxStatusPending [c, r], l.Theme.Color.GrayText1⟩)) ∧
    (l.Theme.Icons.ConfirmIcon ≠ l.Theme.Icons.PendingIcon →
      (transactionRowStatusIcon l c r = l.Theme.Icons.ConfirmIcon ↔ r ≤ c) ∧
      (transactionRowStatusIcon l c r = l.Theme.Icons.PendingIcon ↔ c < r)) := by
  refine ⟨?_, ?_, ?_⟩
  · intro h
    have h1 : ¬ c < r := by omega
    have h2 : ¬ c < 1 := by omega
    have h3 : c ≥ r := h
    simp [transactionRowStatusIcon, transactionRowStatus, h1, h2, h3]
  · intro h
    have h3 : ¬ c ≥ r := by omega
    refine ⟨by simp [transactionRowStatusIcon, h], ?_⟩
    by_cases h2 : c < 1
    · left
      simp [transactionRowStatus, h2]
    · right
      simp [transactionRowStatus, h2, h3]
  · intro hne
    by_cases h : c < r
    · have h1 : ¬ r ≤ c := by omega
      simp [transactionRowStatusIcon, h, h1, hne.symm]
    · have h1 : r ≤ c := by omega
      simp [transactionRowStatusIcon, h, h1, hne]

/-- C24, as stated, fails: on the overview (not the transactions page) the row
of a ticket purchase with 3 confirmations of 2 required has the confirmed date
and time label, yet no status icon is chosen, so no confirm icon. -/
theorem layoutTransactionRow_statusIcon_counterexample :
    TxConfirmations (dcrWallet [TxFilterStaking] (none, none)) ticketTx = 3 ∧
    (dcrWallet [TxFilterStaking] (none, none)).RequiredConfirmations = 2 ∧
    LayoutTransactionRow.status enLocale sampleTimeZone sampleLoad
      (dcrWallet [TxFilterStaking] (none, none)) ticketTx =
      ⟨sampleTimeZone.Format ticketTx.Timestamp "Jan 2, 2006" ++ " at " ++
          sampleTimeZone.Format ticketTx.Timestamp "03:04:05 PM",
        sampleLoad.Theme.Color.GrayText2⟩ ∧
    LayoutTransactionRow.statusIcon sampleLoad (dcrWallet [TxFilterStaking] (none, none))
      ticketTx false = none ∧
    LayoutTransactionRow.statusIcon sampleLoad (dcrWallet [TxFilterStaking] (none, none))
      ticketTx false ≠ some sampleLoad.Theme.Icons.ConfirmIcon := by
  decide

/-- C24, amended: let `c` be the confirmation count of the row and `r >= 1` the
required confirmations.  When the row lays out a status icon (on the
transactions page, or for a Mixed or Regular transaction) the icon agrees with
the status label: for `c >= r` the confirm icon goes with the date and time
text, for `c < r` the pending icon goes with "Unconfirmed" or "Pending", and
when the two icons differ the confirm icon is chosen exactly when `c >= r` and
the pending icon exactly when `c < r`.  Off the transactions page the row of
a transaction of any other type has no status icon, whatever its label. -/
theorem layoutTransactionRow_statusIcon_agrees (loc : Locale) (tz : TimeZone) (l : Load)
    (wal : Asset) (tx : Transaction) (isTxPage : Bool) (c r : Int)
    (hc : TxConfirmations wal tx = c) (hreq : wal.RequiredConfirmations = r) (hr : 1 ≤ r) :
    ((isTxPage = true ∨ tx.Type_ = TxTypeMixed ∨ tx.Type_ = TxTypeRegular) →
      (r ≤ c →
        LayoutTransactionRow.statusIcon l wal tx isTxPage = some l.Theme.Icons.ConfirmIcon ∧
        LayoutTransactionRow.status loc tz l wal tx =
          ⟨tz.Format tx.Timestamp "Jan 2, 2006" ++ " at " ++
              tz.Format tx.Timestamp "03:04:05 PM",
            l.Theme.Color.GrayText2⟩) ∧
      (c < r →
        LayoutTransactionRow.statusIcon l wal tx isTxPage = some l.Theme.Icons.PendingIcon ∧
        (LayoutTransactionRow.status loc tz l wal tx =
            ⟨values.String loc StrUnconfirmedTx, l.Theme.Color.GrayText1⟩ ∨
          LayoutTransactionRow.status loc tz l wal tx =
            ⟨StringF loc StrTxStatusPending [c, r], l.Theme.Color.GrayText1⟩)) ∧
      (l.Theme.Icons.ConfirmIcon ≠ l.Theme.Icons.PendingIcon →
        (LayoutTransactionRow.statusIcon l wal tx isTxPage = some l.Theme.Icons.ConfirmIcon ↔
          r ≤ c) ∧
        (LayoutTransactionRow.statusIcon l wal tx isTxPage = some l.Theme.Icons.PendingIcon ↔
          c < r))) ∧
    (isTxPage = false → tx.Type_ ≠ TxTypeMixed → tx.Type_ ≠ TxTypeRegular →
      LayoutTransactionRow.statusIcon l wal tx isTxPage = none) := by
  obtain ⟨hconfirm, hpending, hexact⟩ := transactionRowStatusIcon_choice loc tz l tx c r hr
  constructor
  · intro hshown
    have hicon : LayoutTransactionRow.statusIcon l wal tx isTxPage =
        some (transactionRowStatusIcon l c r) := by
      have hguard : ¬ ((!isTxPage) = true ∧ ¬ (tx.Type_ = TxTypeMixed ∨ tx.Type_ = TxTypeRegular)) := by
        rintro ⟨h1, h2⟩
        rcases hshown with h | h | h
        · simp [h] at h1
        · exact h2 (Or.inl h)
        · exact h2 (Or.inr h)
      simp only [LayoutTransactionRow.statusIcon, hguard, if_false, hc, hreq]
    have hlabel : LayoutTransactionRow.status loc tz l wal tx =
        transactionRowStatus loc tz l tx c r := by
      simp only [LayoutTransactionRow.status, hc, hreq]
    rw [hicon, hlabel]
    refine ⟨?_, ?_, ?_⟩
    · intro h
      exact ⟨congrArg some (hconfirm h).1, (hconfirm h).2⟩
    · intro h
      exact ⟨congrArg some (hpending h).1, (hpending h).2⟩
    · intro hne
      obtain ⟨h1, h2⟩ := hexact hne
      exact ⟨by rw [Option.some_inj]; exact h1, by rw [Option.some_inj]; exact h2⟩
  · intro hpage hmixed hregular
    simp [LayoutTransactionRow.statusIcon, hpage, hmixed, hregular]

/-- Witness of C24 (amended): on the overview, a sent regular transaction with 3
confirmations of 2 required. -/
theorem layoutTransactionRow_statusIcon_agrees_witness :
    TxConfirmations (dcrWallet [] (none, none)) sentTx = 3 ∧
    (dcrWallet [] (none, none)).RequiredConfirmations = 2 ∧
    (1 : Int) ≤ 2 ∧ sentTx.Type_ = TxTypeRegular ∧ (2 : Int) ≤ 3 ∧
    LayoutTransactionRow.statusIcon sampleLoad (dcrWallet [] (none, none)) sentTx false =
      some sampleLoad.Theme.Icons.ConfirmIcon ∧
    LayoutTransactionRow.status enLocale sampleTimeZone sampleLoad (dcrWallet [] (none, none))
      sentTx =
      ⟨sampleTimeZone.Format sentTx.Timestamp "Jan 2, 2006" ++ " at " ++
          sampleTimeZone.Format sentTx.Timestamp "03:04:05 PM",
        sampleLoad.Theme.Color.GrayText2⟩ :=
  ⟨by decide, rfl, by decide, rfl, by decide,
    ((layoutTransactionRow_statusIcon_agrees enLocale sampleTimeZone sampleLoad
      (dcrWallet [] (none, none)) sentTx false 3 2 (by decide) rfl (by decide)).1
      (Or.inr (Or.inr rfl))).1 (by decide)⟩

/-! ## Theorems about the balance sums -/

/-- Two wrapping `int64` additions give the wrapped exact sum. -/
theorem wrapInt64_add (a b : Int) : wrapInt64 (wrapInt64 a + b) = wrapInt64 (a + b) := by
  unfold wrapInt64
  omega

/-- Wrapping twice is wrapping once. -/
theorem wrapInt64_idem (a : Int) : wrapInt64 (wrapInt64 a) = wrapInt64 a := by
  unfold wrapInt64
  omega

/-- A running sum that each step extends by a wrapping addition ends as the
wrapped sum over the list. -/
theorem foldl_wrapped_sum (step : CummulativeWalletsBalance → Account → CummulativeWalletsBalance)
    (g : CummulativeWalletsBalance → Int) (f : Account → Int)
    (hstep : ∀ sums account, g (step sums account) = wrapInt64 (g sums + f account)) :
    ∀ (accounts : List Account) (sums : CummulativeWalletsBalance),
      wrapInt64 (g sums) = g sums →
      g (accounts.foldl step sums) = wrapInt64 (g sums + (accounts.map f).sum) := by
  intro accounts
  induction accounts with
  | nil =>
    intro sums h
    simpa using h.symm
  | cons a rest ih =>
    intro sums _
    rw [List.foldl_cons, ih (step sums a) (by rw [hstep, wrapInt64_idem]), hstep,
      wrapInt64_add, List.map_cons, List.sum_cons, add_assoc]

/-- A running sum that no step changes keeps its first value. -/
theorem foldl_untouched (step : CummulativeWalletsBalance → Account → CummulativeWalletsBalance)
    (g : CummulativeWalletsBalance → Int)
    (hstep : ∀ sums account, g (step sums account) = g sums) :
    ∀ (accounts : List Account) (sums : CummulativeWalletsBalance),
      g (accounts.foldl step sums) = g sums := by
  intro accounts
  induction accounts with
  | nil =>
    intro sums
    rfl
  | cons a rest ih =>
    intro sums
    rw [List.foldl_cons, ih, hstep]

/-- C22: when `GetAccountsRaw` returns the accounts, Total, Spendable and
ImmatureReward are the `int64` sums over all accounts; the other four fields
are the `int64` sums for a DCR wallet and zero for every other asset type;
when `GetAccountsRaw` fails the error is returned and no balance. -/
theorem calculateTotalWalletsBalance_sums (wallet : BalanceWallet) :
    (∀ accounts, wallet.GetAccountsRaw = (some accounts, none) →
      ∃ cumm, CalculateTotalWalletsBalance wallet = .ok (some cumm, none) ∧
        cumm.Total = wrapInt64 (accounts.map (fun a => a.Balance.Total)).sum ∧
        cumm.Spendable = wrapInt64 (accounts.map (fun a => a.Balance.Spendable)).sum ∧
        cumm.ImmatureReward = wrapInt64 (accounts.map (fun a => a.Balance.ImmatureReward)).sum ∧
        (wallet.GetAssetType = DCRWalletAsset →
          cumm.ImmatureStakeGeneration =
            wrapInt64 (accounts.map (fun a => a.Balance.ImmatureStakeGeneration)).sum ∧
          cumm.LockedByTickets =
            wrapInt64 (accounts.map (fun a => a.Balance.LockedByTickets)).sum ∧
          cumm.VotingAuthority =
            wrapInt64 (accounts.map (fun a => a.Balance.VotingAuthority)).sum ∧
          cumm.UnConfirmed = wrapInt64 (accounts.map (fun a => a.Balance.UnConfirmed)).sum) ∧
        (wallet.GetAssetType ≠ DCRWalletAsset →
          cumm.ImmatureStakeGeneration = 0 ∧ cumm.LockedByTickets = 0 ∧
          cumm.VotingAuthority = 0 ∧ cumm.UnConfirmed = 0)) ∧
    (∀ accountsResult e, wallet.GetAccountsRaw = (accountsResult, some e) →
      CalculateTotalWalletsBalance wallet = .ok (none, some e)) := by
  constructor
  · intro accounts hraw
    refine ⟨accounts.foldl (addAccountBalance (wallet.GetAssetType == DCRWalletAsset)) {},
      by simp [CalculateTotalWalletsBalance, hraw], ?_, ?_, ?_, ?_, ?_⟩
    · have h := foldl_wrapped_sum (addAccountBalance (wallet.GetAssetType == DCRWalletAsset))
        (fun s => s.Total) (fun a => a.Balance.Total)
        (by intro sums account; unfold addAccountBalance; split_ifs <;> rfl) accounts {} (by decide)
      simpa using h
    · have h := foldl_wrapped_sum (addAccountBalance (wallet.GetAssetType == DCRWalletAsset))
        (fun s => s.Spendable) (fun a => a.Balance.Spendable)
        (by intro sums account; unfold addAccountBalance; split_ifs <;> rfl) accounts {} (by decide)
      simpa using h
    · have h := foldl_wrapped_sum (addAccountBalance (wallet.GetAssetType == DCRWalletAsset))
        (fun s => s.ImmatureReward) (fun a => a.Balance.ImmatureReward)
        (by intro sums account; unfold addAccountBalance; split_ifs <;> rfl) accounts {} (by decide)
      simpa using h
    · intro hdcr
      have hb : (wallet.GetAssetType == DCRWalletAsset) = true := by simp [hdcr]
      rw [hb]
      refine ⟨?_, ?_, ?_, ?_⟩
      · have h := foldl_wrapped_sum (addAccountBalance true)
          (fun s => s.ImmatureStakeGeneration) (fun a => a.Balance.ImmatureStakeGeneration)
          (by intro sums account; rfl) accounts {} (by decide)
        simpa using h
      · have h := foldl_wrapped_sum (addAccountBalance true)
          (fun s => s.LockedByTickets) (fun a => a.Balance.LockedByTickets)
          (by intro sums account; rfl) accounts {} (by decide)
        simpa using h
      · have h := foldl_wrapped_sum (addAccountBalance true)
          (fun s => s.VotingAuthority) (fun a => a.Balance.VotingAuthority)
          (by intro sums account; rfl) accounts {} (by decide)
        simpa using h
      · have h := foldl_wrapped_sum (addAccountBalance true)
          (fun s => s.UnConfirmed) (fun a => a.Balance.UnConfirmed)
          (by intro sums account; rfl) accounts {} (by decide)
        simpa using h
    · intro hdcr
      have hb : (wallet.GetAssetType == DCRWalletAsset) = false := by simp [hdcr]
      rw [hb]
      refine ⟨?_, ?_, ?_, ?_⟩
      · exact foldl_untouched (addAccountBalance false) (fun s => s.ImmatureStakeGeneration)
          (by intro sums account; rfl) accounts {}
      · exact foldl_untouched (addAccountBalance false) (fun s => s.LockedByTickets)
          (by intro sums account; rfl) accounts {}
      · exact foldl_untouched (addAccountBalance false) (fun s => s.VotingAuthority)
          (by intro sums account; rfl) accounts {}
      · exact foldl_untouched (addAccountBalance false) (fun s => s.UnConfirmed)
          (by intro sums account; rfl) accounts {}
  · intro accountsResult e hraw
    simp [CalculateTotalWalletsBalance, hraw]

/-- Witness of C22: a DCR wallet with two accounts. -/
theorem calculateTotalWalletsBalance_sums_witness :
    twoAccountWallet.GetAccountsRaw = (some twoAccounts, none) ∧
    ∃ cumm, CalculateTotalWalletsBalance twoAccountWallet = .ok (some cumm, none) ∧
      cumm.Total = wrapInt64 (twoAccounts.map (fun a => a.Balance.Total)).sum :=
  ⟨rfl,
    ((calculateTotalWalletsBalance_sums twoAccountWallet).1 twoAccounts rfl).imp
      (fun _ h => ⟨h.1, h.2.1⟩)⟩

/-- C23: `CalculateMixedAccountBalance` returns an error exactly when the wallet
is nil, or when `GetTicketPurchaseAccount` yields no account and `GetAccount`
on the mixed account number fails; an error of `GetTicketPurchaseAccount`
alone is ignored.  On success the seven fields are those of the balance of the
valid purchase account if there is one, otherwise of the mixed account. -/
theorem calculateMixedAccountBalance_result (selectedWallet : Option DcrAccounts) :
    ((∃ cumm e, CalculateMixedAccountBalance selectedWallet = .ok (cumm, some e)) ↔
      (selectedWallet = none ∨
        ∃ wallet, selectedWallet = some wallet ∧
          (GetTicketPurchaseAccount wallet).1 = none ∧
          (wallet.GetAccount wallet.MixedAccountNumber).2 ≠ none)) ∧
    (∀ wallet account, selectedWallet = some wallet →
      (GetTicketPurchaseAccount wallet).1 = some account →
      CalculateMixedAccountBalance selectedWallet =
        .ok (some ⟨account.Balance.Total, account.Balance.Spendable,
          account.Balance.ImmatureReward, account.Balance.ImmatureStakeGeneration,
          account.Balance.LockedByTickets, account.Balance.VotingAuthority,
          account.Balance.UnConfirmed⟩, none)) ∧
    (∀ wallet account, selectedWallet = some wallet →
      (GetTicketPurchaseAccount wallet).1 = none →
      wallet.GetAccount wallet.MixedAccountNumber = (some account, none) →
      CalculateMixedAccountBalance selectedWallet =
        .ok (some ⟨account.Balance.Total, account.Balance.Spendable,
          account.Balance.ImmatureReward, account.Balance.ImmatureStakeGeneration,
          account.Balance.LockedByTickets, account.Balance.VotingAuthority,
          account.Balance.UnConfirmed⟩, none)) := by
  refine ⟨?_, ?_, ?_⟩
  · cases selectedWallet with
    | none => simp [CalculateMixedAccountBalance]
    | some wallet =>
      cases hp : (GetTicketPurchaseAccount wallet).1 with
      | some account => simp [CalculateMixedAccountBalance, hp]
      | none =>
        cases he : (wallet.GetAccount wallet.MixedAccountNumber).2 with
        | some e => simp [CalculateMixedAccountBalance, hp, he]
        | none =>
          cases ha : (wallet.GetAccount wallet.MixedAccountNumber).1 <;>
            simp [CalculateMixedAccountBalance, hp, he, ha]
  · intro wallet account hw hp
    subst hw
    simp [CalculateMixedAccountBalance, hp, balanceOf]
  · intro wallet account hw hp hmixed
    subst hw
    simp [CalculateMixedAccountBalance, hp, hmixed, balanceOf]

/-- Witness of C23: a wallet whose valid purchase account is the mixed account. -/
theorem calculateMixedAccountBalance_result_witness :
    (GetTicketPurchaseAccount mixerAccounts).1 =
      some { Number := 1, Name := "mixed", Balance := { Total := 7 } } ∧
    CalculateMixedAccountBalance (some mixerAccounts) =
      .ok (some ⟨7, 0, 0, 0, 0, 0, 0⟩, none) :=
  ⟨rfl,
    (calculateMixedAccountBalance_result (some mixerAccounts)).2.1 mixerAccounts
      { Number := 1, Name := "mixed", Balance := { Total := 7 } } rfl rfl⟩

end Cryptopower
